import Mathlib

/-!
Verification of the submarine bridge simulator's core simulation engine.

This file gives a shallow embedding, over `ℚ`, of the backend simulation
code (`backend/sim/physics.py`, `weapons.py`, `sonar.py`, `damage.py`,
`loop.py`, `models.py`) and proves properties of it.

Modelling conventions:
* Python floats are modelled as exact rationals; float literals are read as
  their decimal values.
* Python's float `%` (used only with positive moduli here) is `fmod` below.
* Transcendental functions (`sin`, `cos`, `atan2`-in-degrees, `log10`,
  Gaussian/uniform random draws) do not exist on `ℚ`; the embedded
  functions take them as explicit function parameters ("oracles"), so every
  definition stays executable and theorems quantify over the oracles.
* `math.hypot(dx, dy) ⋈ r` comparisons are encoded exactly by the
  equivalent sign/square comparisons on `dx*dx + dy*dy` (valid for the
  non-negative real square root), so no square-root oracle is needed where
  only a comparison is made in the source.
* Pydantic models become structures; `Dict[str, X]` becomes an association
  list in insertion order.
-/

namespace SubBridge

/-- Python float modulo `a % b` (for `b > 0`): result lies in `[0, b)`. -/
def fmod (a b : ℚ) : ℚ := a - b * ⌊a / b⌋

/-- `physics.clamp(v, lo, hi) = max(lo, min(hi, v))`. -/
def clamp (v lo hi : ℚ) : ℚ := max lo (min hi v)

/-- Python `dict.get(k, d)` over an insertion-ordered association list. -/
def lookupD (l : List (String × ℚ)) (k : String) (d : ℚ) : ℚ :=
  match l.lookup k with
  | some v => v
  | none => d

/-- Python `dict[k] = v`: replace the (unique) binding if present, else append. -/
def updD (l : List (String × ℚ)) (k : String) (v : ℚ) : List (String × ℚ) :=
  if (l.lookup k).isSome then
    l.map (fun p => if p.1 = k then (k, v) else p)
  else l ++ [(k, v)]

-- ---------------------------------------------------------------------------
-- Data model (backend/models.py)
-- ---------------------------------------------------------------------------

inductive Side
  | BLUE
  | RED
  deriving DecidableEq, Repr

structure Kinematics where
  x : ℚ := 0
  y : ℚ := 0
  depth : ℚ := 0
  heading : ℚ := 0
  speed : ℚ := 0
  turn_rate : ℚ := 0
  accel : ℚ := 0
  depth_rate : ℚ := 0
  deriving DecidableEq, Repr

structure Hull where
  max_depth : ℚ := 300
  crush_depth : ℚ := 600
  max_speed : ℚ := 30
  quiet_speed : ℚ := 5
  turn_rate_max : ℚ := 7
  accel_max : ℚ := 0.5
  decel_max : ℚ := 0.7
  deriving DecidableEq, Repr

structure Acoustics where
  source_level_by_speed : List (ℤ × ℚ) := [(5, 110), (10, 118), (15, 130)]
  broadband_sig : ℚ := 0
  thermocline_on : Bool := true
  bearing_noise_extra : ℚ := 0
  passive_snr_penalty_db : ℚ := 0
  hydro_bearing_bias_deg : ℚ := 0
  active_range_noise_add_m : ℚ := 0
  active_bearing_noise_extra : ℚ := 0
  thermocline_bias : ℚ := 0
  last_snr_db : ℚ := 0
  last_detectability : ℚ := 0
  deriving DecidableEq, Repr

structure PowerAllocations where
  helm : ℚ := 0.25
  weapons : ℚ := 0.25
  sonar : ℚ := 0.25
  engineering : ℚ := 0.25
  deriving DecidableEq, Repr

structure SystemsStatus where
  rudder_ok : Bool := true
  ballast_ok : Bool := true
  sonar_ok : Bool := true
  radio_ok : Bool := true
  periscope_ok : Bool := true
  tubes_ok : Bool := true
  deriving DecidableEq, Repr

structure MaintenanceState where
  levels : List (String × ℚ) :=
    [("rudder", 1), ("ballast", 1), ("sonar", 1), ("radio", 1),
     ("periscope", 1), ("tubes", 1)]
  deriving DecidableEq, Repr

structure TorpedoDef where
  name : String := "Mk48"
  speed : ℚ := 45
  seeker_cone_deg : ℚ := 35
  seeker_range_m : ℚ := 4000
  enable_range_m : ℚ := 800
  max_run_time_s : ℚ := 600
  deriving DecidableEq, Repr

inductive TubeState
  | Empty
  | Loaded
  | Flooded
  | DoorsOpen
  deriving DecidableEq, Repr

structure Tube where
  idx : ℤ
  state : TubeState := .Empty
  weapon : Option TorpedoDef := none
  timer_s : ℚ := 0
  -- Pydantic restricts `next_state` to Loaded/Flooded/DoorsOpen; the code
  -- never stores Empty here, so `Option TubeState` is a safe superset.
  next_state : Option TubeState := none
  deriving DecidableEq, Repr

structure WeaponsSuite where
  tube_count : ℤ := 6
  torpedoes_stored : ℤ := 6
  reload_time_s : ℚ := 45
  flood_time_s : ℚ := 8
  doors_time_s : ℚ := 3
  tubes : List Tube :=
    [{ idx := 1 }, { idx := 2 }, { idx := 3 },
     { idx := 4 }, { idx := 5 }, { idx := 6 }]
  time_penalty_multiplier : ℚ := 1
  depth_charges_stored : ℤ := 0
  depth_charge_cooldown_s : ℚ := 2
  depth_charge_cooldown_timer_s : ℚ := 0
  -- These two are read via `getattr(ws, _, default)` in weapons.py; the
  -- pydantic model has no such fields, so the getattr defaults are the
  -- field defaults here.
  torpedo_quick_cooldown_s : ℚ := 5
  torpedo_quick_cooldown_timer_s : ℚ := 0
  deriving DecidableEq, Repr

structure ShipCapabilities where
  can_set_nav : Bool := true
  has_active_sonar : Bool := true
  has_torpedoes : Bool := true
  has_guns : Bool := false
  has_depth_charges : Bool := false
  deriving DecidableEq, Repr

structure Reactor where
  output_mw : ℚ := 60
  max_mw : ℚ := 100
  scrammed : Bool := false
  battery_pct : ℚ := 100
  deriving DecidableEq, Repr

structure DamageState where
  hull : ℚ := 0
  sensors : ℚ := 0
  propulsion : ℚ := 0
  flooding_rate : ℚ := 0
  deriving DecidableEq, Repr

structure Ship where
  id : String := "ownship"
  side : Side := .BLUE
  kin : Kinematics := {}
  hull : Hull := {}
  acoustics : Acoustics := {}
  weapons : WeaponsSuite := {}
  reactor : Reactor := {}
  damage : DamageState := {}
  power : PowerAllocations := {}
  systems : SystemsStatus := {}
  maintenance : MaintenanceState := {}
  ship_class : Option String := none
  capabilities : Option ShipCapabilities := none
  -- `sonar.passive_contacts` probes `_periscope_raised`/`_radio_raised`
  -- via `hasattr`; these dynamic attributes default to absent (false).
  periscope_raised_attr : Bool := false
  radio_raised_attr : Bool := false
  deriving DecidableEq, Repr

/-- `models.TelemetryContact`. -/
structure TelemetryContact where
  id : String
  bearing : ℚ
  strength : ℚ
  classifiedAs : String
  confidence : ℚ
  bearingKnown : Bool := true
  rangeKnown : Bool := false
  detectability : Option ℚ := none
  snrDb : Option ℚ := none
  bearingSigmaDeg : Option ℚ := none
  deriving DecidableEq, Repr

/-- The torpedo entity: `weapons.try_fire` builds it as a plain dict; its
keys become fields here. -/
structure Torpedo where
  id : String := ""
  x : ℚ := 0
  y : ℚ := 0
  depth : ℚ := 0
  heading : ℚ := 0
  speed : ℚ := 45
  armed : Bool := false
  enable_range_m : ℚ := 800
  seeker_range_m : ℚ := 4000
  run_time : ℚ := 0
  max_run_time : ℚ := 600
  target_id : Option String := none
  name : String := "Mk48"
  seeker_cone : ℚ := 35
  side : Side := .BLUE
  spoofed_timer : ℚ := 0
  run_depth : ℚ := 0
  doctrine : String := "passive_then_active"
  pn_nav_const : ℚ := 3
  los_prev : Option ℚ := none
  deriving DecidableEq, Repr

/-- The depth-charge entity built by `weapons.try_drop_depth_charges`. -/
structure DepthCharge where
  x : ℚ := 0
  y : ℚ := 0
  depth : ℚ := 0
  target_depth : ℚ := 30
  sink_rate_mps : ℚ := 5
  side : Side := .RED
  name : String := "DepthCharge"
  armed : Bool := true
  exploded : Bool := false
  detonated_at : Option ℚ := none
  spawn_time : ℚ := 0
  deriving DecidableEq, Repr

/-- `ecs.World`: ships keyed by id in insertion order, plus projectiles. -/
structure World where
  ships : List (String × Ship) := []
  torpedoes : List Torpedo := []
  depth_charges : List DepthCharge := []
  deriving DecidableEq, Repr

/-- `World.all_ships()` (dict values in insertion order). -/
def World.all_ships (w : World) : List Ship := w.ships.map Prod.snd

-- ---------------------------------------------------------------------------
-- Kinematics (backend/sim/physics.py)
-- ---------------------------------------------------------------------------

def KNOTS_TO_MPS : ℚ := 0.514444

/-- `physics.cavitation_speed_for_depth`. -/
def cavitation_speed_for_depth (depth_m : ℚ) : ℚ :=
  max 5 (min 30 (0.08 * depth_m + 5))

structure KinOut where
  cav : Bool
  heading : ℚ
  speed : ℚ
  depth : ℚ
  deriving DecidableEq, Repr

/-- `physics.integrate_kinematics`.  `sinD`/`cosD` are the sine/cosine of an
angle given in degrees (the source converts to radians first; the oracle
absorbs the conversion).  Pydantic ships always carry `systems`, so the
`getattr(ship, "systems", None) is None` escape hatch is always false. -/
def integrate_kinematics (sinD cosD : ℚ → ℚ) (ship : Ship)
    (ordered_heading ordered_speed ordered_depth dt : ℚ)
    (ballast_boost : Bool := false) : Ship × KinOut :=
  let hull := ship.hull
  let kin := ship.kin
  let hull_damage_factor := max 0.1 (1 - ship.damage.hull)
  let damage_accel_factor := max 0.2 hull_damage_factor
  let damage_turn_factor := max 0.3 hull_damage_factor
  let reactor_cap_speed :=
    hull.max_speed * (ship.reactor.output_mw / max 1 ship.reactor.max_mw) *
      hull_damage_factor
  let target_speed := clamp ordered_speed 0 reactor_cap_speed
  let speed1 :=
    if target_speed > kin.speed then
      min target_speed (kin.speed + hull.accel_max * damage_accel_factor * dt)
    else
      max target_speed (kin.speed - hull.decel_max * damage_accel_factor * dt)
  let rudder_ok := ship.systems.rudder_ok
  let dh := fmod (ordered_heading - kin.heading + 540) 360 - 180
  let max_turn := hull.turn_rate_max * damage_turn_factor * dt
  let turn := if rudder_ok then clamp dh (-max_turn) max_turn else 0
  let heading1 := fmod (kin.heading + turn) 360
  let ballast_ok := ship.systems.ballast_ok
  let base_depth_rate :=
    if ballast_ok then (if ballast_boost then (6 : ℚ) else 3) else 0.5
  let max_depth_rate := base_depth_rate * damage_turn_factor
  let limited_ordered_depth := clamp ordered_depth 0 hull.max_depth
  let dz := limited_ordered_depth - kin.depth
  let step := clamp dz (-(max_depth_rate * dt)) (max_depth_rate * dt)
  let depth1 := clamp (kin.depth + step) 0 hull.max_depth
  let sog_mps := speed1 * KNOTS_TO_MPS
  let x1 := kin.x + sinD heading1 * sog_mps * dt
  let y1 := kin.y + cosD heading1 * sog_mps * dt
  let cav := decide (speed1 > cavitation_speed_for_depth depth1)
  let kin1 : Kinematics :=
    { kin with x := x1, y := y1, depth := depth1, heading := heading1,
               speed := speed1 }
  ({ ship with kin := kin1 }, ⟨cav, heading1, speed1, depth1⟩)

-- ---------------------------------------------------------------------------
-- Tube state machine (backend/sim/weapons.py)
-- ---------------------------------------------------------------------------

/-- `weapons._get_tube`: first tube with matching index. -/
def getTube (ship : Ship) (idx : ℤ) : Option Tube :=
  ship.weapons.tubes.find? (fun t => decide (t.idx = idx))

/-- In-place mutation of the tube found by `_get_tube`: replace the first
tube with the given index. -/
def setTube : List Tube → ℤ → Tube → List Tube
  | [], _, _ => []
  | t :: ts, idx, t' =>
    if t.idx = idx then t' :: ts else t :: setTube ts idx t'

/-- The per-tube body of `weapons.step_tubes`: count the timer down; on
reaching zero with a pending `next_state`, promote it and clear it. -/
def stepTube (dt : ℚ) (t : Tube) : Tube :=
  if t.timer_s > 0 then
    let timer1 := max 0 (t.timer_s - dt)
    if timer1 = 0 ∧ t.next_state ≠ none then
      { t with timer_s := timer1, state := t.next_state.getD t.state,
               next_state := none }
    else { t with timer_s := timer1 }
  else t

/-- `weapons.step_tubes`: cooldown timers plus every tube's timer. -/
def step_tubes (ship : Ship) (dt : ℚ) : Ship :=
  let ws := ship.weapons
  let dcT :=
    if ws.depth_charge_cooldown_timer_s > 0 then
      max 0 (ws.depth_charge_cooldown_timer_s - dt)
    else ws.depth_charge_cooldown_timer_s
  let tqT :=
    if ws.torpedo_quick_cooldown_timer_s > 0 then
      max 0 (ws.torpedo_quick_cooldown_timer_s - dt)
    else ws.torpedo_quick_cooldown_timer_s
  { ship with weapons :=
      { ws with depth_charge_cooldown_timer_s := dcT,
                torpedo_quick_cooldown_timer_s := tqT,
                tubes := ws.tubes.map (stepTube dt) } }

/-- `weapons.try_load_tube`: returns the success flag and the new ship. -/
def try_load_tube (ship : Ship) (tube_idx : ℤ)
    (weapon_name : String := "Mk48") : Bool × Ship :=
  if ship.systems.tubes_ok = false then (false, ship)
  else
    let ws := ship.weapons
    match getTube ship tube_idx with
    | none => (false, ship)
    | some tube =>
      if tube.state ≠ .Empty ∨ ws.torpedoes_stored ≤ 0 then (false, ship)
      else if tube.timer_s > 0 then (false, ship)
      else
        let tube' :=
          { tube with weapon := some { name := weapon_name },
                      next_state := some .Loaded,
                      timer_s :=
                        ws.reload_time_s * max 1 ws.time_penalty_multiplier }
        (true, { ship with weapons :=
            { ws with tubes := setTube ws.tubes tube_idx tube',
                      torpedoes_stored := ws.torpedoes_stored - 1 } })

/-- `weapons.try_flood_tube`. -/
def try_flood_tube (ship : Ship) (tube_idx : ℤ) : Bool × Ship :=
  if ship.systems.tubes_ok = false then (false, ship)
  else
    let ws := ship.weapons
    match getTube ship tube_idx with
    | none => (false, ship)
    | some tube =>
      if tube.state ≠ .Loaded then (false, ship)
      else if tube.timer_s > 0 then (false, ship)
      else
        let tube' :=
          { tube with next_state := some .Flooded,
                      timer_s :=
                        ws.flood_time_s * max 1 ws.time_penalty_multiplier }
        (true, { ship with weapons :=
            { ws with tubes := setTube ws.tubes tube_idx tube' } })

/-- `weapons.try_set_doors` (note: closing the doors does NOT apply the
time-penalty multiplier in the source). -/
def try_set_doors (ship : Ship) (tube_idx : ℤ) (open_state : Bool) :
    Bool × Ship :=
  if ship.systems.tubes_ok = false then (false, ship)
  else
    let ws := ship.weapons
    match getTube ship tube_idx with
    | none => (false, ship)
    | some tube =>
      if tube.timer_s > 0 then (false, ship)
      else if open_state = true ∧ tube.state = .Flooded then
        let tube' :=
          { tube with next_state := some .DoorsOpen,
                      timer_s :=
                        ws.doors_time_s * max 1 ws.time_penalty_multiplier }
        (true, { ship with weapons :=
            { ws with tubes := setTube ws.tubes tube_idx tube' } })
      else if open_state = false ∧ tube.state = .DoorsOpen then
        let tube' :=
          { tube with next_state := some .Flooded,
                      timer_s := ws.doors_time_s }
        (true, { ship with weapons :=
            { ws with tubes := setTube ws.tubes tube_idx tube' } })
      else (false, ship)

/-- `weapons.try_fire`: requires DoorsOpen and a loaded weapon; clears the
tube and returns the spawned torpedo.  `nowMs` is `int(time.time()*1000)`. -/
def try_fire (nowMs : ℤ) (ship : Ship) (tube_idx : ℤ)
    (bearing_deg run_depth : ℚ) (enable_range_m : Option ℚ := none)
    (doctrine : String := "passive_then_active") : Option Torpedo × Ship :=
  match getTube ship tube_idx with
  | none => (none, ship)
  | some tube =>
    if tube.state ≠ .DoorsOpen then (none, ship)
    else
      match tube.weapon with
      | none => (none, ship)
      | some wpn =>
        let torp : Torpedo :=
          { id := "torpedo_" ++ ship.id ++ "_" ++ toString tube_idx ++ "_" ++
              toString nowMs,
            x := ship.kin.x, y := ship.kin.y, depth := ship.kin.depth,
            heading := fmod bearing_deg 360,
            speed := wpn.speed,
            armed := false,
            enable_range_m := enable_range_m.getD wpn.enable_range_m,
            seeker_range_m := wpn.seeker_range_m,
            run_time := 0,
            max_run_time := wpn.max_run_time_s,
            target_id := none,
            name := wpn.name,
            seeker_cone := wpn.seeker_cone_deg,
            side := ship.side,
            spoofed_timer := 0,
            run_depth := run_depth,
            doctrine := doctrine,
            pn_nav_const := 3,
            los_prev := none }
        let tube' := { tube with weapon := none, state := .Empty,
                                 timer_s := 0, next_state := none }
        (some torp, { ship with weapons :=
            { ship.weapons with
              tubes := setTube ship.weapons.tubes tube_idx tube' } })

/-- One weapons-facing command of the tube state machine. -/
inductive WeaponsCmd
  | load (tube : ℤ) (weapon : String)
  | flood (tube : ℤ)
  | doors (tube : ℤ) (open_state : Bool)
  | fire (nowMs : ℤ) (tube : ℤ) (bearing run_depth : ℚ)
      (enable : Option ℚ) (doctrine : String)
  | step (dt : ℚ)

/-- Apply one command to the ship (discarding the returned flag/torpedo). -/
def runWeaponsCmd : WeaponsCmd → Ship → Ship
  | .load i w, s => (try_load_tube s i w).2
  | .flood i, s => (try_flood_tube s i).2
  | .doors i b, s => (try_set_doors s i b).2
  | .fire n i b r e d, s => (try_fire n s i b r e d).2
  | .step dt, s => step_tubes s dt

/-- Apply a command sequence in order. -/
def runWeaponsCmds (cmds : List WeaponsCmd) (s : Ship) : Ship :=
  cmds.foldl (fun sh c => runWeaponsCmd c sh) s

/-- The tube timer/next-state invariant of the claim: the timer is never
negative, a zero timer means no pending state, and a running timer always
has a pending state. -/
def TubeInv (t : Tube) : Prop :=
  0 ≤ t.timer_s ∧ (t.timer_s = 0 → t.next_state = none) ∧
    (0 < t.timer_s → t.next_state ≠ none)

instance (t : Tube) : Decidable (TubeInv t) := by
  unfold TubeInv; infer_instance

/-- All tubes of a ship satisfy the invariant. -/
def ShipTubesInv (ship : Ship) : Prop :=
  ∀ t ∈ ship.weapons.tubes, TubeInv t

instance (ship : Ship) : Decidable (ShipTubesInv ship) := by
  unfold ShipTubesInv; infer_instance

/-- The transition durations are positive, as `step_engineering` always
makes them (each is `45/8/3` divided by positive factors). -/
def PosTimes (ship : Ship) : Prop :=
  0 < ship.weapons.reload_time_s ∧ 0 < ship.weapons.flood_time_s ∧
    0 < ship.weapons.doors_time_s

instance (ship : Ship) : Decidable (PosTimes ship) := by
  unfold PosTimes; infer_instance

/-- A tube mid-reload (timer running), for concrete witnesses. -/
def c7Tube : Tube :=
  { idx := 1, state := .Empty, weapon := none, timer_s := 45,
    next_state := some .Loaded }

/-- A ship holding `c7Tube`, for concrete witnesses. -/
def c7Ship : Ship := { weapons := { tubes := [c7Tube] } }

-- ---------------------------------------------------------------------------
-- Depth charges (backend/sim/weapons.py)
-- ---------------------------------------------------------------------------

/-- Random draws of `try_drop_depth_charges`, one triple per spawned charge:
`uniformR k` is the `random.uniform(0.0, max(0.0, spread_meters))` draw,
`theta k` the `random.uniform(0, 2π)` angle (fed to the `cos`/`sin`
oracles), `unit k` the `random.random()` draw in `[0, 1)`. -/
structure DropOracles where
  uniformR : ℕ → ℚ → ℚ := fun _ _ => 0
  theta : ℕ → ℚ := fun _ => 0
  cosQ : ℚ → ℚ := fun _ => 1
  sinQ : ℚ → ℚ := fun _ => 0
  unit : ℕ → ℚ := fun _ => 0

/-- Result of `try_drop_depth_charges` (`{"ok", "error"?, "data"?}`) plus
the mutated ship. -/
structure DropResult where
  ok : Bool
  error : Option String := none
  data : List DepthCharge := []
  ship : Ship
  deriving DecidableEq, Repr

/-- `weapons.try_drop_depth_charges`. -/
def try_drop_depth_charges (O : DropOracles) (ship : Ship)
    (spread_meters mnDepth mxDepth : ℚ) (spread_size : ℤ) : DropResult :=
  let ws := ship.weapons
  if (match ship.capabilities with
      | some c => c.has_depth_charges
      | none => false) = false then
    { ok := false, error := some "No depth charges capability", ship := ship }
  else if ws.depth_charges_stored ≤ 0 then
    { ok := false, error := some "No depth charges remaining", ship := ship }
  else if ws.depth_charge_cooldown_timer_s > 0 then
    { ok := false, error := some "Depth charge system cooling down",
      ship := ship }
  else
    let count : ℤ := max 1 (min spread_size (min 10 ws.depth_charges_stored))
    let sink_rate_mps : ℚ := 5
    let min_detonation_depth : ℚ := 15
    let spawned := (List.range count.toNat).map fun k =>
      let r := O.uniformR k (max 0 spread_meters)
      let ox := O.cosQ (O.theta k) * r
      let oy := O.sinQ (O.theta k) * r
      let target_depth :=
        max min_detonation_depth
          (mnDepth + O.unit k * max 0 (mxDepth - mnDepth))
      ({ x := ship.kin.x + ox, y := ship.kin.y + oy,
         depth := max 0 ship.kin.depth, target_depth := target_depth,
         sink_rate_mps := sink_rate_mps, side := ship.side,
         name := "DepthCharge", armed := true, exploded := false,
         detonated_at := none, spawn_time := 0 } : DepthCharge)
    let ws1 :=
      { ws with depth_charges_stored := ws.depth_charges_stored - count,
                depth_charge_cooldown_timer_s :=
                  max 0 ws.depth_charge_cooldown_s }
    { ok := true, data := spawned, ship := { ship with weapons := ws1 } }

/-- Concrete destroyer-like ship with 5 stored charges, for C6. -/
def c6Ship : Ship :=
  { capabilities := some { has_torpedoes := false,
                           has_depth_charges := true },
    weapons := { tube_count := 0, torpedoes_stored := 0, tubes := [],
                 depth_charges_stored := 5 } }

/-- Concrete oracle bundle for C6 (`random.random() = 1/2`). -/
def c6O : DropOracles := { unit := fun _ => 1/2 }

-- ---------------------------------------------------------------------------
-- Torpedo dynamics (backend/sim/weapons.py)
-- ---------------------------------------------------------------------------

/-- `hypot(dx,dy) ≥ r`, encoded exactly on the squared distance. -/
def hypotGeB (sq r : ℚ) : Bool := decide (r ≤ 0 ∨ r ^ 2 ≤ sq)

/-- `hypot(dx,dy) < r`, encoded exactly on the squared distance. -/
def hypotLtB (sq r : ℚ) : Bool := decide (0 < r ∧ sq < r ^ 2)

/-- `hypot(dx,dy) > r`, encoded exactly on the squared distance. -/
def hypotGtB (sq r : ℚ) : Bool := decide (r < 0 ∨ r ^ 2 < sq)

/-- Oracles for `step_torpedo`: compass `atan2` in degrees, degree-based
`sin`/`cos` for motion, the single potential `random.random()` and
`random.uniform(-30, 30)` draws of one step, and whether spoofing is
enabled (`not bool(os.getenv("PYTEST_CURRENT_TEST"))`). -/
structure TorpOracles where
  atan2D : ℚ → ℚ → ℚ := fun _ _ => 0
  sinD : ℚ → ℚ := fun _ => 0
  cosD : ℚ → ℚ := fun _ => 0
  randUnitVal : ℚ := 1
  jitterVal : ℚ := 0
  spoofAllowed : Bool := false

/-- `weapons.try_launch_torpedo_quick` result (`{"ok","error"/"data"}`),
plus the mutated ship and the emitted event names. -/
structure LaunchResult where
  ok : Bool
  error : Option String := none
  data : Option Torpedo := none
  ship : Ship
  events : List String := []
  deriving DecidableEq, Repr

/-- `weapons.try_launch_torpedo_quick` (AI-only quick launch). -/
def try_launch_torpedo_quick (nowMs : ℤ) (ship : Ship)
    (bearing_deg run_depth : ℚ) (enable_range_m : Option ℚ := none)
    (doctrine : String := "passive_then_active") : LaunchResult :=
  let ws := ship.weapons
  if (match ship.capabilities with
      | some c => c.has_torpedoes
      | none => false) = false then
    { ok := false, error := some "No torpedoes capability", ship := ship }
  else if ws.torpedoes_stored ≤ 0 then
    { ok := false, error := some "No torpedoes remaining", ship := ship }
  else if ws.torpedo_quick_cooldown_timer_s > 0 then
    { ok := false, error := some "Torpedo system cooling down", ship := ship }
  else
    let td : TorpedoDef := {}
    let torp : Torpedo :=
      { id := "torpedo_" ++ ship.id ++ "_quick_" ++ toString nowMs,
        x := ship.kin.x, y := ship.kin.y, depth := ship.kin.depth,
        heading := fmod bearing_deg 360,
        speed := td.speed, armed := false,
        enable_range_m := enable_range_m.getD td.enable_range_m,
        seeker_range_m := td.seeker_range_m,
        run_time := 0, max_run_time := td.max_run_time_s,
        target_id := none, name := td.name,
        seeker_cone := td.seeker_cone_deg, side := ship.side,
        spoofed_timer := 0, run_depth := run_depth, doctrine := doctrine,
        pn_nav_const := 3, los_prev := none }
    { ok := true, data := some torp,
      ship := { ship with weapons :=
          { ws with torpedoes_stored := ws.torpedoes_stored - 1,
                    torpedo_quick_cooldown_timer_s :=
                      max 0 ws.torpedo_quick_cooldown_s } },
      events := ["torpedo.quick_launched"] }

/-- Spoof-timer decay at the top of `step_torpedo`. -/
def spoofDecay (t : Torpedo) (dt : ℚ) : Torpedo :=
  if t.spoofed_timer > 0 then
    { t with spoofed_timer := max 0 (t.spoofed_timer - dt) }
  else t

/-- Pre-arm self-preservation: bias heading away from ownship when it is
within 300 m and within 60° ahead. -/
def preArmAvoid (O : TorpOracles) (own : Ship) (t : Torpedo) (dt : ℚ) :
    Torpedo :=
  let ownSq := (own.kin.x - t.x) ^ 2 + (own.kin.y - t.y) ^ 2
  if hypotLtB ownSq 300 then
    let bearing_to_own :=
      fmod (O.atan2D (own.kin.x - t.x) (own.kin.y - t.y)) 360
    let off := |fmod (bearing_to_own - t.heading + 540) 360 - 180|
    if off < 60 then
      let away := fmod (bearing_to_own + 180) 360
      let dh := fmod (away - t.heading + 540) 360 - 180
      let max_turn := 30 * dt
      let turn := max (-max_turn) (min max_turn dh)
      { t with heading := fmod (t.heading + turn) 360 }
    else t
  else t

/-- Damage applied by a torpedo proximity detonation. -/
def applyTorpedoHit (s : Ship) : Ship :=
  { s with damage :=
      { s.damage with hull := min 1 (s.damage.hull + 0.5),
                      flooding_rate := min 10 (s.damage.flooding_rate + 2) } }

/-- The detonation loop: damage the first non-same-side ship within 30 m
(when armed) and stop; `none` when no ship detonates the torpedo. -/
def detonationScan (armed : Bool) (tside : Side) (tx ty : ℚ) :
    List (String × Ship) → Option (List (String × Ship))
  | [] => none
  | (k, s) :: rest =>
    if s.side = tside then
      (detonationScan armed tside tx ty rest).map (fun r => (k, s) :: r)
    else if armed &&
        hypotLtB ((s.kin.x - tx) ^ 2 + (s.kin.y - ty) ^ 2) 30 then
      some ((k, applyTorpedoHit s) :: rest)
    else
      (detonationScan armed tside tx ty rest).map (fun r => (k, s) :: r)

/-- `weapons._nearest_target`: nearest opposing ship inside the seeker cone
and seeker range (0.6× under the ownship thermocline). -/
def nearestTarget (O : TorpOracles) (t : Torpedo) (w : World) :
    Option Ship :=
  (w.all_ships.foldl
    (fun (acc : Option Ship × ℚ) ship =>
      if ship.side = t.side then acc
      else
        let dx := ship.kin.x - t.x
        let dy := ship.kin.y - t.y
        let rngSq := dx ^ 2 + dy ^ 2
        let env_mult : ℚ :=
          if (match w.ships.lookup "ownship" with
              | some own => own.acoustics.thermocline_on
              | none => false) = true then 0.6 else 1
        if hypotGtB rngSq (t.seeker_range_m * env_mult) then acc
        else
          let bearing := fmod (O.atan2D dx dy) 360
          let off := |fmod (bearing - t.heading + 540) 360 - 180|
          if off ≤ t.seeker_cone / 2 ∧ rngSq < acc.2 then (some ship, rngSq)
          else acc)
    (none, 10 ^ 24)).1

/-- The possible spoofing roll at the head of the guidance block. -/
def spoofRoll (O : TorpOracles) (t : Torpedo) : Torpedo × List String :=
  let spoof_prob : ℚ := if O.spoofAllowed then 0.02 else 0
  if t.spoofed_timer = 0 ∧ O.randUnitVal < spoof_prob then
    ({ t with spoofed_timer := 3 }, ["torpedo.spoofed"])
  else (t, [])

/-- The steering part of the guidance block: proportional-to-error on the
first frame, proportional navigation afterwards; reduced authority and
jitter while spoofed. -/
def guidanceSteer (O : TorpOracles) (t1 : Torpedo) (los dt : ℚ) : Torpedo :=
  match t1.los_prev with
  | none =>
    let dh0 := fmod (los - t1.heading + 540) 360 - 180
    let dh := if t1.spoofed_timer > 0 then dh0 + O.jitterVal else dh0
    let max_turn_rate : ℚ := if t1.spoofed_timer > 0 then 10 else 20
    let applied_turn := max (-max_turn_rate) (min max_turn_rate dh) * dt
    { t1 with heading := fmod (t1.heading + applied_turn) 360,
              los_prev := some los }
  | some los_prev =>
    let los_rate :=
      (fmod (los - los_prev + 540) 360 - 180) / max (1 / 1000000) dt
    let commanded0 := t1.pn_nav_const * los_rate +
      1 * (fmod (los - t1.heading + 540) 360 - 180)
    let commanded :=
      if t1.spoofed_timer > 0 then commanded0 + O.jitterVal else commanded0
    let max_turn_rate : ℚ := if t1.spoofed_timer > 0 then 10 else 20
    let applied_turn :=
      max (-max_turn_rate) (min max_turn_rate commanded) * dt
    { t1 with heading := fmod (t1.heading + applied_turn) 360,
              los_prev := some los }

/-- The guidance block (post-arm, target acquired). -/
def guidanceStep (O : TorpOracles) (t : Torpedo) (target : Ship)
    (dt : ℚ) : Torpedo × List String :=
  let r := spoofRoll O t
  let dx := target.kin.x - r.1.x
  let dy := target.kin.y - r.1.y
  let los := fmod (O.atan2D dx dy) 360
  (guidanceSteer O r.1 los dt, r.2)

/-- Movement using the compass convention, plus run-time accounting. -/
def torpedoMove (O : TorpOracles) (t : Torpedo) (dt : ℚ) : Torpedo :=
  let mps := t.speed * 0.514444
  { t with x := t.x + O.sinD t.heading * mps * dt,
           y := t.y + O.cosD t.heading * mps * dt,
           run_time := t.run_time + dt }

/-- Detonation check, guidance and movement — the tail of `step_torpedo`
after the safety blocks. -/
def afterSafety (O : TorpOracles) (t : Torpedo) (w : World) (dt : ℚ)
    (ev : List String) : Torpedo × World × List String :=
  match detonationScan t.armed t.side t.x t.y w.ships with
  | some ships1 =>
    ({ t with run_time := t.max_run_time + 1 }, { w with ships := ships1 },
     ev ++ ["torpedo.detonated"])
  | none =>
    let r :=
      match nearestTarget O t w with
      | some target =>
        if t.armed then guidanceStep O t target dt else (t, [])
      | none => (t, [])
    (torpedoMove O r.1 dt, w, ev ++ r.2)

/-- Everything in `step_torpedo` after the arming check. -/
def stepTorpedoRest (O : TorpOracles) (own : Ship) (t0 : Torpedo)
    (w : World) (dt : ℚ) (ev : List String) :
    Torpedo × World × List String :=
  let t1 := spoofDecay t0 dt
  let ownSq := (own.kin.x - t1.x) ^ 2 + (own.kin.y - t1.y) ^ 2
  if t1.armed = false then
    afterSafety O (preArmAvoid O own t1 dt) w dt ev
  else
    if hypotLtB ownSq 200 = true ∧ t1.run_time > 3 then
      ({ t1 with run_time := t1.max_run_time + 1 }, w,
       ev ++ ["torpedo.self_destruct"])
    else
      afterSafety O t1 w dt ev

/-- `weapons.step_torpedo`.  The source reads `world.ships["ownship"]`
first (KeyError — modelled as `none` — when absent): the arming distance is
measured from the "ownship" entry, whoever fired the torpedo. -/
def step_torpedo (O : TorpOracles) (t : Torpedo) (w : World) (dt : ℚ) :
    Option (Torpedo × World × List String) :=
  match w.ships.lookup "ownship" with
  | none => none
  | some own =>
    let dx := t.x - own.kin.x
    let dy := t.y - own.kin.y
    let distSq := dx ^ 2 + dy ^ 2
    let shouldArm := (!t.armed) && hypotGeB distSq t.enable_range_m
    let t0 := if shouldArm then { t with armed := true } else t
    let ev : List String := if shouldArm then ["torpedo.armed"] else []
    some (stepTorpedoRest O own t0 w dt ev)

/-- A RED ship with quick-launch torpedo capability, 10 km east of the
origin, for C3. -/
def c3Red : Ship :=
  { id := "red-01", side := .RED, kin := { x := 10000 },
    capabilities := some { has_torpedoes := true } }

/-- The quick launch of a torpedo by `c3Red` (the shooter). -/
def c3Launch : LaunchResult :=
  try_launch_torpedo_quick 0 c3Red 0 50 none "passive_then_active"

/-- The torpedo `c3Red` fired (at the shooter's own position). -/
def c3Torp : Torpedo := c3Launch.data.getD {}

/-- World holding ownship at the origin and the post-launch `c3Red`. -/
def c3World : World :=
  { ships := [("ownship", {}), ("red-01", c3Launch.ship)] }

-- ---------------------------------------------------------------------------
-- Sonar (backend/sim/sonar.py)
-- ---------------------------------------------------------------------------

def BAFFLES_DEG : ℚ := 60

/-- `sonar.normalize_angle_deg` (`angle % 360.0`). -/
def normalize_angle_deg (angle : ℚ) : ℚ := fmod angle 360

/-- `sonar.angle_diff` (`((a - b + 540) % 360) - 180`). -/
def angle_diff (a b : ℚ) : ℚ := fmod (a - b + 540) 360 - 180

/-- Oracles for the transcendental pieces of the sonar code: `atan2D dx dy`
stands for `degrees(atan2(dx, dy))`, `sqrtQ s` for `sqrt s` (so
`hypot(dx,dy) = sqrtQ (dx²+dy²)`), `log10Q` for `log10`, and the `gauss*`
streams for the Gaussian draws (indexed by target position in the list). -/
structure AcousticOracles where
  atan2D : ℚ → ℚ → ℚ := fun _ _ => 0
  sqrtQ : ℚ → ℚ := fun _ => 0
  log10Q : ℚ → ℚ := fun _ => 0
  gaussBearing : ℕ → ℚ := fun _ => 0
  gaussRange : ℕ → ℚ := fun _ => 0

/-- Ascending insertion of an integer key. -/
def insertSorted (x : ℤ) : List ℤ → List ℤ
  | [] => [x]
  | y :: ys => if x ≤ y then x :: y :: ys else y :: insertSorted x ys

/-- Python `sorted` on integer keys. -/
def sortInts (l : List ℤ) : List ℤ := l.foldr insertSorted []

/-- Python `min(keys, key=lambda k: abs(k - target))`: first minimiser in
list order (ties keep the earlier element). -/
def argminAbsKey (target : ℚ) : List ℤ → Option ℤ
  | [] => none
  | k :: ks =>
    some (ks.foldl
      (fun (best cand : ℤ) =>
        if |(cand : ℚ) - target| < |(best : ℚ) - target| then cand else best)
      k)

/-- Python `dict.get` over the integer-keyed source-level curve. -/
def lookupIntD (l : List (ℤ × ℚ)) (k : ℤ) (d : ℚ) : ℚ :=
  match l.lookup k with
  | some v => v
  | none => d

/-- The source-level speed bin: `min(sorted(keys), key=|k - |speed||)`.
An empty curve makes Python's `min` raise; that unreachable case is modelled
by skipping the lookup (yielding the `.get` default downstream). -/
def speedKeySourceLevel (curve : List (ℤ × ℚ)) (speed : ℚ) : ℚ :=
  match argminAbsKey |speed| (sortInts (curve.map Prod.fst)) with
  | none => 110
  | some k => lookupIntD curve k 110

/-- `sonar._classify_ship_passive` (its `range_m` argument is unused in the
source as well). -/
def classifyShipPassive (ship : Ship) (detectability snr_db _range_m : ℚ) :
    String :=
  let base_class := ship.ship_class
  if detectability ≥ 0.8 ∧ snr_db ≥ 25 then
    match base_class with
    | some "SSN" => "SSN"
    | some "Convoy" => "Merchant/Convoy"
    | some "Destroyer" => "Warship"
    | none => "Unknown"
    | some other => other
  else if detectability ≥ 0.6 ∧ snr_db ≥ 20 then
    match base_class with
    | some "SSN" => "SSN?"
    | some "Convoy" => "Merchant?"
    | some "Destroyer" => "Warship?"
    | none => "Unknown"
    | some other => other ++ "?"
  else if detectability ≥ 0.4 ∧ snr_db ≥ 15 then
    match base_class with
    | some "SSN" => "Submarine?"
    | some "Convoy" => "Vessel?"
    | some "Destroyer" => "Contact?"
    | none => "Unknown"
    | some _ => "Contact?"
  else
    "Unknown"

/-- Source level of a passive target: its speed-bin curve value, plus the
surface (+6 dB at depth ≤ 1 m) and raised-mast bonuses. -/
def passiveSrcLvl (other : Ship) : ℚ :=
  let src0 :=
    speedKeySourceLevel other.acoustics.source_level_by_speed other.kin.speed
  let src1 := if other.kin.depth ≤ 1 then src0 + 6 else src0
  let mast_bonus :=
    (if other.periscope_raised_attr then (2 : ℚ) else 0) +
      (if other.radio_raised_attr then (2 : ℚ) else 0)
  src1 + mast_bonus

/-- Passive SNR: `max(0, SL − TL − ambient(60) − penalty)` with
`TL = 20·log10(max(1, range)) + 4·[thermocline]`. -/
def passiveSnrDb (O : AcousticOracles) (self_ship other : Ship) : ℚ :=
  let dx := other.kin.x - self_ship.kin.x
  let dy := other.kin.y - self_ship.kin.y
  let rng := O.sqrtQ (dx * dx + dy * dy)
  let tl := 20 * O.log10Q (max 1 rng) +
    (if self_ship.acoustics.thermocline_on then (4 : ℚ) else 0)
  max 0 (passiveSrcLvl other - tl - 60 -
    self_ship.acoustics.passive_snr_penalty_db)

/-- Detectability: `clamp(SNR/30, 0, 1)`. -/
def passiveDetect (O : AcousticOracles) (self_ship other : Ship) : ℚ :=
  max 0 (min 1 (passiveSnrDb O self_ship other / 30))

/-- The suppression condition of the passive baffles: the target's true
bearing lies strictly inside the `BAFFLES_DEG`-wide cone centered astern,
i.e. its relative bearing is more than `180 - BAFFLES_DEG/2` off the bow. -/
def baffled (O : AcousticOracles) (self_ship other : Ship) : Prop :=
  |angle_diff
      (normalize_angle_deg (O.atan2D (other.kin.x - self_ship.kin.x)
        (other.kin.y - self_ship.kin.y)))
      self_ship.kin.heading| > 180 - BAFFLES_DEG / 2

instance (O : AcousticOracles) (s o : Ship) : Decidable (baffled O s o) := by
  unfold baffled; infer_instance

/-- `sonar.passive_contacts`.  The source's debug-only writes of
`last_snr_db`/`last_detectability` onto the *target* ship are elided (the
function's return value is the contact list, as here); the bearing, SNR,
detectability and baffles expressions are factored into the named
definitions above, exactly as computed inline by the source. -/
def passive_contacts (O : AcousticOracles) (self_ship : Ship)
    (others : List Ship) : List TelemetryContact :=
  if self_ship.systems.sonar_ok = false then []
  else
    others.enum.filterMap fun kv =>
      let k := kv.1
      let other := kv.2
      if other.id = self_ship.id then none
      else if baffled O self_ship other then none
      else
        let snr_db := passiveSnrDb O self_ship other
        let detect := passiveDetect O self_ship other
        if detect < 0.15 then none
        else
          let dx := other.kin.x - self_ship.kin.x
          let dy := other.kin.y - self_ship.kin.y
          let rng := O.sqrtQ (dx * dx + dy * dy)
          let brg := normalize_angle_deg (O.atan2D dx dy)
          let sigma :=
            max 1 (10 - other.kin.speed * 0.3 +
              self_ship.acoustics.bearing_noise_extra)
          let noisy_bearing := normalize_angle_deg (brg + O.gaussBearing k)
          let confidence := min 1 (detect * 1.2)
          let classified_as := classifyShipPassive other detect snr_db rng
          some
            { id := other.id
              bearing := noisy_bearing
              strength := detect
              classifiedAs := classified_as
              confidence := confidence
              bearingKnown := true
              rangeKnown := false
              detectability := some detect
              snrDb := some snr_db
              bearingSigmaDeg := some sigma }

/-- A RED contact ship 1 km due north of the origin, for C8. -/
def c8Red : Ship := { id := "red-01", side := .RED, kin := { y := 1000 } }

/-- The contact the default observer derives from `c8Red` under the
all-zero oracles. -/
def c8Contact : TelemetryContact :=
  { id := "red-01", bearing := 0, strength := 1, classifiedAs := "Unknown",
    confidence := 1, bearingKnown := true, rangeKnown := false,
    detectability := some 1, snrDb := some 52, bearingSigmaDeg := some 10 }

/-- `sonar.ActivePingState`. -/
structure ActivePingState where
  cooldown_s : ℚ := 12
  timer : ℚ := 0
  deriving DecidableEq, Repr

/-- `ActivePingState.can_ping` (`self.timer <= 0.0`). -/
def ActivePingState.can_ping (s : ActivePingState) : Bool :=
  decide (s.timer ≤ 0)

/-- `ActivePingState.tick`: decrements only while the timer is positive (and
may overshoot below zero). -/
def ActivePingState.tick (s : ActivePingState) (dt : ℚ) : ActivePingState :=
  if s.timer > 0 then { s with timer := s.timer - dt } else s

/-- `ActivePingState.start`: returns success and the updated state. -/
def ActivePingState.start (s : ActivePingState) : Bool × ActivePingState :=
  if s.can_ping then (true, { s with timer := s.cooldown_s }) else (false, s)

/-- Folding `tick` over a list of frame times. -/
def ActivePingState.ticks (s : ActivePingState) (dts : List ℚ) :
    ActivePingState :=
  dts.foldl (fun a d => a.tick d) s

/-- `sonar.active_ping`: per non-own ship, `(id, range_est, bearing, strength)`. -/
def active_ping (O : AcousticOracles) (self_ship : Ship)
    (others : List Ship) : List (String × ℚ × ℚ × ℚ) :=
  if self_ship.systems.sonar_ok = false then []
  else
    others.enum.filterMap fun kv =>
      let k := kv.1
      let other := kv.2
      if other.id = self_ship.id then none
      else
        let dx := other.kin.x - self_ship.kin.x
        let dy := other.kin.y - self_ship.kin.y
        let rng := O.sqrtQ (dx * dx + dy * dy)
        let brg := normalize_angle_deg (O.atan2D dx dy)
        let base_rng_noise := max 1 (rng + O.gaussRange k)
        let rng_noise :=
          base_rng_noise + self_ship.acoustics.active_range_noise_add_m
        let brg_noise := normalize_angle_deg (brg + O.gaussBearing k)
        let strength := max 0 (min 1 (1 / (1 + rng_noise / 2000)))
        some (other.id, rng_noise, brg_noise, strength)

-- ---------------------------------------------------------------------------
-- Maintenance tasks & aggregated penalties (backend/sim/loop.py)
-- ---------------------------------------------------------------------------

/-- The four stations owning maintenance task lists. -/
inductive Station
  | helm
  | sonar
  | weapons
  | engineering
  deriving DecidableEq, Repr

/-- `MaintenanceTask.stage` (`task → failing → failed`). -/
inductive TaskStage
  | task
  | failing
  | failed
  deriving DecidableEq, Repr

/-- `models.MaintenanceTask`. -/
structure MaintenanceTask where
  id : String
  station : Station
  system : String
  key : String
  title : String
  stage : TaskStage := .task
  progress : ℚ := 0
  started : Bool := false
  base_deadline_s : ℚ := 30
  time_remaining_s : ℚ := 30
  created_at : ℚ := 0
  deriving DecidableEq, Repr

/-- `stage_rank = {"task": 0, "failing": 1, "failed": 2}`. -/
def stage_rank : TaskStage → ℕ
  | .task => 0
  | .failing => 1
  | .failed => 2

/-- Helm factor table of `_apply_stage_penalties`. -/
def stageHelmFactor : TaskStage → ℚ
  | .task => 1
  | .failing => 0.7
  | .failed => 0

/-- Sonar bearing-noise table of `_apply_stage_penalties`. -/
def stageSonarExtra : TaskStage → ℚ
  | .task => 0
  | .failing => 3
  | .failed => 12

/-- Weapons time-penalty table of `_apply_stage_penalties`. -/
def stageWeaponsMult : TaskStage → ℚ
  | .task => 1
  | .failing => 1.4
  | .failed => 2.5

/-- `Simulation._apply_stage_penalties`. -/
def applyStagePenalties (ship : Ship) (station : Station)
    (stage : TaskStage) : Ship :=
  match station with
  | .helm =>
    let ship1 :=
      { ship with hull :=
          { ship.hull with turn_rate_max := 7 * stageHelmFactor stage } }
    let ship2 :=
      if stage = .failed then
        { ship1 with systems := { ship1.systems with rudder_ok := false } }
      else ship1
    if stage = .failing ∨ stage = .failed then
      { ship2 with acoustics :=
          { ship2.acoustics with thermocline_on := true } }
    else ship2
  | .sonar =>
    let ship1 :=
      { ship with acoustics :=
          { ship.acoustics with
            bearing_noise_extra := stageSonarExtra stage } }
    let ship2 :=
      if stage = .failed then
        { ship1 with systems := { ship1.systems with sonar_ok := false } }
      else ship1
    if stage = .failing ∨ stage = .failed then
      { ship2 with acoustics :=
          { ship2.acoustics with
            passive_snr_penalty_db := if stage = .failing then 3 else 10,
            active_range_noise_add_m := if stage = .failing then 50 else 250,
            active_bearing_noise_extra :=
              if stage = .failing then 0.5 else 3 } }
    else ship2
  | .weapons =>
    let ship1 :=
      { ship with weapons :=
          { ship.weapons with
            time_penalty_multiplier := stageWeaponsMult stage } }
    if stage = .failed then
      { ship1 with systems := { ship1.systems with tubes_ok := false } }
    else ship1
  | .engineering =>
    if stage = .failed then
      { ship with systems := { ship.systems with ballast_ok := false } }
    else ship

/-- The per-station task lists (`Simulation._active_tasks`, whose dict keys
are exactly helm/sonar/weapons/engineering in insertion order). -/
structure ActiveTasks where
  helm : List MaintenanceTask := []
  sonar : List MaintenanceTask := []
  weapons : List MaintenanceTask := []
  engineering : List MaintenanceTask := []
  deriving DecidableEq, Repr

/-- Worst active stage of a station's list (`"task"` when empty). -/
def worstStage (tasks : List MaintenanceTask) : TaskStage :=
  tasks.foldl
    (fun worst t =>
      if stage_rank worst < stage_rank t.stage then t.stage else worst)
    .task

/-- `Simulation._recompute_penalties_from_tasks`: apply the worst stage of
each station, in dict order. -/
def recomputePenaltiesFromTasks (tasks : ActiveTasks) (ship : Ship) : Ship :=
  let ship1 := applyStagePenalties ship .helm (worstStage tasks.helm)
  let ship2 := applyStagePenalties ship1 .sonar (worstStage tasks.sonar)
  let ship3 := applyStagePenalties ship2 .weapons (worstStage tasks.weapons)
  applyStagePenalties ship3 .engineering (worstStage tasks.engineering)

/-- Station name string (dict keys / task id prefixes). -/
def stationName : Station → String
  | .helm => "helm"
  | .sonar => "sonar"
  | .weapons => "weapons"
  | .engineering => "engineering"

/-- The fixed task catalog of `_spawn_task_for`:
`(system, key, title)` per station. -/
def taskCatalog : Station → List (String × String × String)
  | .helm =>
    [("rudder", "helm.rudder.lube", "Rudder Lubricate"),
     ("rudder", "helm.rudder.linkage", "Rudder Linkage Adjust"),
     ("ballast", "helm.depth.sensor", "Depth/Pressure Sensor Recal"),
     ("ballast", "helm.pressure.sensor", "Hull Pressure Transducer Test"),
     ("ballast", "helm.salinity.sensor", "Salinity Sensor Clean"),
     ("ballast", "helm.temp.sensor", "Thermocline Temp Probe Cal"),
     ("rudder", "helm.gyro.align", "Gyro Alignment Check"),
     ("rudder", "helm.gps.sync", "GPS Time/Almanac Sync"),
     ("rudder", "helm.heading.encoder", "Heading Encoder Verify"),
     ("rudder", "helm.hydraulics.filter", "Hydraulics Filter Replace")]
  | .sonar =>
    [("sonar", "sonar.hydro.cal", "Hydrophone Calibration"),
     ("sonar", "sonar.hydro.servo", "Hydrophone Servo Grease"),
     ("sonar", "sonar.passive.dsp", "Passive DSP Self-Test"),
     ("sonar", "sonar.ping.tx", "Ping Transmit Chain Test"),
     ("sonar", "sonar.ping.rx", "Ping Response Chain Test"),
     ("sonar", "sonar.preamp", "Preamp Gain Trim"),
     ("sonar", "sonar.array.cable", "Array Cable Continuity"),
     ("sonar", "sonar.cooling.loop", "Cooling Loop Flush"),
     ("sonar", "sonar.beamformer", "Beamformer Rebalance"),
     ("sonar", "sonar.clock", "ADC Clock Discipline")]
  | .weapons =>
    [("tubes", "weap.tube.seal", "Tube Seal Inspection"),
     ("tubes", "weap.tube.purge", "Tube Purge Cycle"),
     ("tubes", "weap.tube.door", "Door Actuator Lube"),
     ("tubes", "weap.tube.bore", "Bore Clean & Inspect"),
     ("tubes", "weap.fire.ctrl", "Fire Control Align"),
     ("tubes", "weap.wire.handler", "Wire Guide Service"),
     ("tubes", "weap.gyros.spinup", "Gyro Spinup Test"),
     ("tubes", "weap.seeker.bench", "Seeker Bench Check"),
     ("tubes", "weap.power.bus", "Weapons Bus Check"),
     ("tubes", "weap.cooling.pump", "Cooling Pump Service")]
  | .engineering =>
    [("ballast", "eng.ballast.valve", "Ballast Valve Service"),
     ("ballast", "eng.pump.impeller", "Pump Impeller Inspect"),
     ("ballast", "eng.scrubber", "Air Scrubber Replace"),
     ("ballast", "eng.heat.xchg", "Heat Exchanger Clean"),
     ("ballast", "eng.reactor.coolant", "Coolant Chemistry Check"),
     ("ballast", "eng.generator", "Generator Bearing Lube"),
     ("ballast", "eng.battery.cell", "Battery Cell Test"),
     ("ballast", "eng.hvac.filter", "HVAC Filter Replace"),
     ("ballast", "eng.busbars", "Busbar Tightening"),
     ("ballast", "eng.pipe.leak", "Pipe Leak Inspection")]

/-- Python `int()` (truncation toward zero) on a rational. -/
def pyTrunc (x : ℚ) : ℤ := if 0 ≤ x then ⌊x⌋ else ⌈x⌉

/-- Random draws of `_spawn_task_for` and the respawn interval:
`choiceIdx` selects the catalog entry (`random.choice`), `deadline` is the
`uniform(25, 45)` base deadline, `idnum` the `randint(100, 999)` id suffix,
`respawnBase` the `uniform(60, 120)` respawn interval. -/
structure TaskRng where
  choiceIdx : Station → ℕ := fun _ => 0
  deadline : Station → ℚ := fun _ => 30
  idnum : Station → ℕ := fun _ => 100
  respawnBase : Station → ℚ := fun _ => 90

/-- `Simulation._spawn_task_for`: append a fresh stage-`task` entry. -/
def spawnTaskFor (O : TaskRng) (st : Station) (now_s : ℚ)
    (tasks : List MaintenanceTask) : List MaintenanceTask :=
  let choices := taskCatalog st
  let c := choices.getD (O.choiceIdx st % choices.length)
    ("rudder", "misc.task", "Maintenance")
  let base_deadline := O.deadline st
  let tid := stationName st ++ "-" ++
    toString (pyTrunc (now_s * 1000) % 100000) ++ "-" ++
    toString (O.idnum st)
  tasks ++
    [{ id := tid, station := st, system := c.1, key := c.2.1,
       title := c.2.2, stage := .task, progress := 0, started := false,
       base_deadline_s := base_deadline, time_remaining_s := base_deadline,
       created_at := now_s }]

/-- `Simulation._task_spawn_timers` (defaults `first_task_delay_s = 30`). -/
structure SpawnTimers where
  helm : ℚ := 30
  sonar : ℚ := 30
  weapons : ℚ := 30
  engineering : ℚ := 30
  deriving DecidableEq, Repr

/-- The task-related simulation state touched by `_step_station_tasks`. -/
structure TasksState where
  active_tasks : ActiveTasks := {}
  task_spawn_timers : SpawnTimers := {}
  suppress_maintenance_spawns : Bool := false
  deriving DecidableEq, Repr

/-- `Simulation._station_power_fraction`. -/
def stationPowerFraction (ship : Ship) (st : Station) : ℚ :=
  max 0 (min 1 (match st with
    | .helm => ship.power.helm
    | .sonar => ship.power.sonar
    | .weapons => ship.power.weapons
    | .engineering => ship.power.engineering))

/-- Spawn phase of `_step_station_tasks` for one station: count the timer
down; at zero, spawn (unless suppressed) and re-arm from the respawn draw
divided by `max(0.2, maint_spawn_scale)`. -/
def stepSpawnStation (O : TaskRng) (scale now_s dt : ℚ) (suppress : Bool)
    (timer : ℚ) (st : Station) (tasks : List MaintenanceTask) :
    ℚ × List MaintenanceTask :=
  let timer1 := timer - dt
  if timer1 ≤ 0 then
    (O.respawnBase st / max 0.2 scale,
     if suppress = false then spawnTaskFor O st now_s tasks else tasks)
  else (timer1, tasks)

/-- Per-task body of the progress loop of `_step_station_tasks`: returns
the updated maintenance levels and `none` when the task completed (and was
removed). -/
def stepOneTask (power_frac dt : ℚ) (levels : List (String × ℚ))
    (task : MaintenanceTask) :
    List (String × ℚ) × Option MaintenanceTask :=
  let t1 := { task with time_remaining_s := max 0 (task.time_remaining_s - dt) }
  let t2 :=
    if t1.started then
      { t1 with progress := min 1 (t1.progress + (0.2 * power_frac) * dt) }
    else t1
  if t2.progress ≥ 1 then
    (updD levels t2.system (min 1 (lookupD levels t2.system 1 + 0.1)), none)
  else if t2.time_remaining_s ≤ 0 then
    if t2.stage = .task then
      let t3 := { t2 with stage := .failing,
                          base_deadline_s := t2.base_deadline_s * 1.25,
                          time_remaining_s := t2.base_deadline_s * 1.25 }
      (updD levels t3.system (max 0 (lookupD levels t3.system 1 - 0.05)),
       some t3)
    else if t2.stage = .failing then
      (updD levels t2.system (max 0 (lookupD levels t2.system 1 - 0.1)),
       some { t2 with stage := .failed })
    else (levels, some t2)
  else (levels, some t2)

/-- The progress loop over one station's task list, threading the
maintenance levels. -/
def stepTaskList (power_frac dt : ℚ) (levels : List (String × ℚ)) :
    List MaintenanceTask → List (String × ℚ) × List MaintenanceTask
  | [] => (levels, [])
  | t :: ts =>
    let r1 := stepOneTask power_frac dt levels t
    let r2 := stepTaskList power_frac dt r1.1 ts
    (r2.1, match r1.2 with
           | none => r2.2
           | some t1 => t1 :: r2.2)

/-- `Simulation._step_station_tasks`: spawn, progress/escalate, then
recompute the aggregated penalties from the surviving tasks. -/
def stepStationTasks (O : TaskRng) (scale now_s dt : ℚ) (st : TasksState)
    (ship : Ship) : TasksState × Ship :=
  let sup := st.suppress_maintenance_spawns
  let sh := stepSpawnStation O scale now_s dt sup st.task_spawn_timers.helm
    .helm st.active_tasks.helm
  let ss := stepSpawnStation O scale now_s dt sup st.task_spawn_timers.sonar
    .sonar st.active_tasks.sonar
  let sw := stepSpawnStation O scale now_s dt sup
    st.task_spawn_timers.weapons .weapons st.active_tasks.weapons
  let se := stepSpawnStation O scale now_s dt sup
    st.task_spawn_timers.engineering .engineering
    st.active_tasks.engineering
  let ph := stepTaskList (stationPowerFraction ship .helm) dt
    ship.maintenance.levels sh.2
  let ps := stepTaskList (stationPowerFraction ship .sonar) dt ph.1 ss.2
  let pw := stepTaskList (stationPowerFraction ship .weapons) dt ps.1 sw.2
  let pe := stepTaskList (stationPowerFraction ship .engineering) dt
    pw.1 se.2
  let tasks1 : ActiveTasks :=
    { helm := ph.2, sonar := ps.2, weapons := pw.2, engineering := pe.2 }
  let ship1 := { ship with maintenance := { levels := pe.1 } }
  ({ st with active_tasks := tasks1,
             task_spawn_timers :=
               { helm := sh.1, sonar := ss.1, weapons := sw.1,
                 engineering := se.1 } },
   recomputePenaltiesFromTasks tasks1 ship1)

/-- A failed helm task (as seeded by the maintenance tests), for C4. -/
def c4FailedTask : MaintenanceTask :=
  { id := "t_fail", station := .helm, system := "rudder",
    key := "helm.hydraulics.fail", title := "Hydraulics Major Leak",
    stage := .failed, progress := 0, started := false,
    base_deadline_s := 20, time_remaining_s := 10, created_at := 0 }

-- ---------------------------------------------------------------------------
-- Command handlers (backend/sim/loop.py, Simulation.handle_command)
-- ---------------------------------------------------------------------------

/-- One entry of `Simulation._last_ping_responses`. -/
structure PingResponse where
  id : String
  bearing : ℚ
  range_est : ℚ
  strength : ℚ
  -- the source's "at" key; `at` is reserved in Lean
  at_ts : String
  deriving DecidableEq, Repr

/-- One record appended to the AI orchestrator's `_fleet_contact_history`
by the ping branch (claim-relevant keys kept). -/
structure FleetContactEntry where
  time : String
  reportedBy : String
  bearing : ℚ
  contact_id : String := "ownship"
  confidence : ℚ := 0.8
  classifiedAs : String := "ENEMY_ACTIVE_SONAR"
  deriving DecidableEq, Repr

/-- The slice of `Simulation` state touched by the `sonar.ping` branch of
`handle_command` (the parallel `_enemy_ship_contacts_timestamps` bookkeeping
and the persistent event log are elided). -/
structure PingSimState where
  aps : ActivePingState := {}
  last_ping_at : Option String := none
  last_ping_responses : List PingResponse := []
  enemy_ship_contacts : List (String × List TelemetryContact) := []
  fleet_contact_history : List FleetContactEntry := []
  transient_events : List String := []
  deriving DecidableEq, Repr

/-- Append to a dict-of-lists entry, creating it when absent. -/
def appendContact (m : List (String × List TelemetryContact)) (k : String)
    (c : TelemetryContact) : List (String × List TelemetryContact) :=
  if (m.lookup k).isSome then
    m.map (fun p => if p.1 = k then (p.1, p.2 ++ [c]) else p)
  else m ++ [(k, [c])]

/-- Python `history[-100:]`. -/
def capLast100 (l : List FleetContactEntry) : List FleetContactEntry :=
  l.drop (l.length - 100)

/-- The `sonar.ping` branch of `Simulation.handle_command`.  `gaussEnemy`
stands for the `random.gauss(0, 2.0)` draws of the counter-detection loop;
`own` is `world.get_ship("ownship")`. -/
def handleSonarPing (O : AcousticOracles) (gaussEnemy : ℕ → ℚ)
    (now_iso : String) (w : World) (own : Ship) (st : PingSimState) :
    Option String × PingSimState :=
  match st.aps.start with
  | (false, aps1) => (some "Ping on cooldown", { st with aps := aps1 })
  | (true, aps1) =>
    let res := active_ping O own (w.all_ships.filter (fun s => s.id ≠ own.id))
    let responses : List PingResponse := res.map fun r =>
      { id := r.1, bearing := r.2.2.1, range_est := r.2.1,
        strength := r.2.2.2, at_ts := now_iso }
    -- Counter-detection contacts for every RED ship with
    -- `hypot(dx,dy) <= 15000` (encoded exactly on squares).
    let redStep := w.all_ships.enum.foldl
      (fun (acc : List (String × List TelemetryContact) ×
               List FleetContactEntry) kv =>
        let k := kv.1
        let ship := kv.2
        if ship.side = .RED then
          let dx := own.kin.x - ship.kin.x
          let dy := own.kin.y - ship.kin.y
          if dx * dx + dy * dy ≤ 15000 ^ 2 then
            let dist_m := O.sqrtQ (dx * dx + dy * dy)
            let brg := normalize_angle_deg (O.atan2D dx dy)
            let brg_noise := normalize_angle_deg (brg + gaussEnemy k)
            let strength := max 0 (min 1 (1 / (1 + dist_m / 10000)))
            let contact : TelemetryContact :=
              { id := "ENEMY_ACTIVE_SONAR", bearing := brg_noise,
                strength := strength, classifiedAs := "ENEMY_ACTIVE_SONAR",
                confidence := 0.8, bearingKnown := true, rangeKnown := false }
            let entry : FleetContactEntry :=
              { time := now_iso, reportedBy := ship.id, bearing := brg_noise }
            (appendContact acc.1 ship.id contact,
             capLast100 (acc.2 ++ [entry]))
          else acc
        else acc)
      (st.enemy_ship_contacts, st.fleet_contact_history)
    (none,
     { st with
       aps := aps1,
       last_ping_at := some now_iso,
       last_ping_responses := responses,
       enemy_ship_contacts := redStep.1,
       fleet_contact_history := redStep.2,
       transient_events := st.transient_events ++ ["counterDetected"] })

/-- The `engineering.power.allocate` branch of `Simulation.handle_command`.
Each payload field is optional and defaults to the current allocation.
Returns the error string (or `none`) and the resulting allocations. -/
def powerAllocate (p : PowerAllocations)
    (helmQ weaponsQ sonarQ engineeringQ : Option ℚ) :
    Option String × PowerAllocations :=
  let helm := max 0 (helmQ.getD p.helm)
  let weapons := max 0 (weaponsQ.getD p.weapons)
  let sonar := max 0 (sonarQ.getD p.sonar)
  let engineering := max 0 (engineeringQ.getD p.engineering)
  let total := helm + weapons + sonar + engineering
  if total > 1.000001 then (some "Allocation exceeds budget", p)
  else (none, { helm := helm, weapons := weapons, sonar := sonar,
                engineering := engineering })

/-- The `engineering.reactor.set` branch of `Simulation.handle_command`.
The `mw` payload field is optional and defaults to the current output. -/
def reactorSet (ship : Ship) (mwQ : Option ℚ) : Option String × Ship :=
  let mw := max 0 (min ship.reactor.max_mw (mwQ.getD ship.reactor.output_mw))
  (none, { ship with reactor := { ship.reactor with output_mw := mw } })

-- ---------------------------------------------------------------------------
-- Engineering step (backend/sim/damage.py)
-- ---------------------------------------------------------------------------

/-- `damage.step_engineering`, translated statement by statement. -/
def step_engineering (ship : Ship) (dt : ℚ) : Ship :=
  -- SCRAM reduces available reactor power
  let output0 :=
    if ship.reactor.scrammed then min ship.reactor.output_mw 10
    else ship.reactor.output_mw
  let alloc := ship.power
  let total_mw := max 0 (min ship.reactor.max_mw output0)
  let _mw_propulsion := total_mw * max 0 (min 1 alloc.helm)
  let _mw_sensors := total_mw * max 0 (min 1 alloc.sonar)
  let mw_weapons := total_mw * max 0 (min 1 alloc.weapons)
  let mw_engineering := total_mw * max 0 (min 1 alloc.engineering)
  -- sonar penalties from hull damage
  let hull_damage_factor := max 0.1 (1 - ship.damage.hull)
  let damage_sensors_factor := max 0.2 hull_damage_factor
  let ac := ship.acoustics
  let ac1 :=
    { ac with
      passive_snr_penalty_db :=
        max 0 (ac.passive_snr_penalty_db + (1 - damage_sensors_factor) * 15),
      bearing_noise_extra :=
        max 0 (ac.bearing_noise_extra + (1 - damage_sensors_factor) * 5),
      active_range_noise_add_m :=
        max 0 (ac.active_range_noise_add_m + (1 - damage_sensors_factor) * 200),
      active_bearing_noise_extra :=
        max 0 (ac.active_bearing_noise_extra + (1 - damage_sensors_factor) * 2) }
  -- weapons timers from weapons power share and hull damage
  let hull_damage_factor_w := max 0.3 (1 - ship.damage.hull)
  let damage_weapons_factor := max 0.5 hull_damage_factor_w
  let wshare := max 0.2 (mw_weapons / max 1 ship.reactor.max_mw)
  let ws := ship.weapons
  let ws1 :=
    { ws with
      reload_time_s := 45 / wshare / damage_weapons_factor,
      flood_time_s := 8 / wshare / damage_weapons_factor,
      doors_time_s := 3 / wshare / damage_weapons_factor }
  -- maintenance progression/decay over every tracked level
  let prog_rate := (mw_engineering / max 1 ship.reactor.max_mw) * 0.1
  let decay_rate : ℚ := 0.01
  let levels1 := ship.maintenance.levels.map fun p =>
    if mw_engineering > 0.1 then (p.1, min 1 (p.2 + prog_rate * dt))
    else (p.1, max 0 (p.2 - decay_rate * dt))
  -- battery drain proportional to speed fraction (unconditional)
  let speed_factor := max 0 (min 1 (ship.kin.speed / max 1 ship.hull.max_speed))
  let drain_rate := 1 * speed_factor
  let battery1 := max 0 (ship.reactor.battery_pct - (drain_rate / 60) * dt)
  let output1 :=
    if ship.reactor.scrammed ∧ battery1 ≤ 0 then 0 else output0
  -- system failures if maintenance too low
  let sys1 : SystemsStatus :=
    { rudder_ok := decide (lookupD levels1 "rudder" 1 > 0.2),
      ballast_ok := decide (lookupD levels1 "ballast" 1 > 0.2),
      sonar_ok := decide (lookupD levels1 "sonar" 1 > 0.2),
      radio_ok := decide (lookupD levels1 "radio" 1 > 0.2),
      periscope_ok := decide (lookupD levels1 "periscope" 1 > 0.2),
      tubes_ok := decide (lookupD levels1 "tubes" 1 > 0.2) }
  { ship with
    reactor := { ship.reactor with output_mw := output1, battery_pct := battery1 },
    acoustics := ac1,
    weapons := ws1,
    maintenance := { levels := levels1 },
    systems := sys1 }

/-- Concrete non-scrammed moving ship used to refute C5. -/
def c5Ship : Ship := { kin := { speed := 10 } }

-- ===========================================================================
-- Theorems
-- ===========================================================================

theorem fmod_eq_mul_fract {b : ℚ} (hb : b ≠ 0) (a : ℚ) :
    fmod a b = b * Int.fract (a / b) := by
  unfold fmod Int.fract
  rw [mul_sub, mul_div_cancel₀ a hb]

theorem fmod_nonneg (a : ℚ) {b : ℚ} (hb : 0 < b) : 0 ≤ fmod a b := by
  rw [fmod_eq_mul_fract (ne_of_gt hb)]
  exact mul_nonneg (le_of_lt hb) (Int.fract_nonneg _)

theorem fmod_lt (a : ℚ) {b : ℚ} (hb : 0 < b) : fmod a b < b := by
  rw [fmod_eq_mul_fract (ne_of_gt hb)]
  calc b * Int.fract (a / b) < b * 1 :=
        (mul_lt_mul_left hb).mpr (Int.fract_lt_one _)
    _ = b := mul_one b

theorem clamp_nonneg {lo : ℚ} (v : ℚ) (h : 0 ≤ lo) (hi : ℚ) :
    0 ≤ clamp v lo hi :=
  le_trans h (le_max_left _ _)

theorem clamp_le_hi {lo hi : ℚ} (v : ℚ) (h : lo ≤ hi) :
    clamp v lo hi ≤ hi :=
  max_le h (min_le_left _ _)

/-- C1: After every call to `integrate_kinematics`, whatever ordered heading,
speed and depth are passed (and whatever trig oracles stand in for
`sin`/`cos`), the ship's depth lies in `[0, hull.max_depth]` and its heading
lies in `[0, 360)`.  The only assumption is the physical one that the hull's
rated `max_depth` is non-negative. -/
theorem integrate_kinematics_depth_heading_bounds
    (sinD cosD : ℚ → ℚ) (ship : Ship)
    (ordered_heading ordered_speed ordered_depth dt : ℚ) (ballast_boost : Bool)
    (hmd : 0 ≤ ship.hull.max_depth) :
    let s := (integrate_kinematics sinD cosD ship ordered_heading
                ordered_speed ordered_depth dt ballast_boost).1
    (0 ≤ s.kin.depth ∧ s.kin.depth ≤ ship.hull.max_depth) ∧
      (0 ≤ s.kin.heading ∧ s.kin.heading < 360) := by
  refine ⟨⟨?_, ?_⟩, ?_, ?_⟩
  · exact clamp_nonneg _ le_rfl _
  · exact clamp_le_hi _ hmd
  · exact fmod_nonneg _ (by norm_num)
  · exact fmod_lt _ (by norm_num)

/-- C2: For every `engineering.power.allocate` command with non-negative
requested fractions, the handler rejects with `"Allocation exceeds budget"`
and leaves the stored fractions unchanged when the sum exceeds `1.000001`,
and otherwise returns `none` and stores the requested values exactly. -/
theorem power_allocate_budget (p : PowerAllocations) (h w s e : ℚ)
    (hh : 0 ≤ h) (hw : 0 ≤ w) (hs : 0 ≤ s) (he : 0 ≤ e) :
    (h + w + s + e > 1.000001 →
      powerAllocate p (some h) (some w) (some s) (some e) =
        (some "Allocation exceeds budget", p)) ∧
    (h + w + s + e ≤ 1.000001 →
      powerAllocate p (some h) (some w) (some s) (some e) =
        (none, { helm := h, weapons := w, sonar := s, engineering := e })) := by
  have eh : max 0 h = h := max_eq_right hh
  have ew : max 0 w = w := max_eq_right hw
  have es : max 0 s = s := max_eq_right hs
  have ee : max 0 e = e := max_eq_right he
  constructor
  · intro hgt
    simp only [powerAllocate, Option.getD_some, eh, ew, es, ee, if_pos hgt]
  · intro hle
    simp only [powerAllocate, Option.getD_some, eh, ew, es, ee,
      if_neg (not_lt.mpr hle)]

/-- Witness for C2: one rejected and one accepted allocation. -/
theorem power_allocate_budget_witness :
    (powerAllocate {} (some 0.5) (some 0.5) (some 0.3) (some 0) =
      (some "Allocation exceeds budget", {})) ∧
    (powerAllocate {} (some 0.1) (some 0.2) (some 0.3) (some 0.4) =
      (none, { helm := 0.1, weapons := 0.2, sonar := 0.3,
               engineering := 0.4 })) :=
  ⟨(power_allocate_budget {} 0.5 0.5 0.3 0 (by norm_num) (by norm_num)
      (by norm_num) (by norm_num)).1 (by norm_num),
   (power_allocate_budget {} 0.1 0.2 0.3 0.4 (by norm_num) (by norm_num)
      (by norm_num) (by norm_num)).2 (by norm_num)⟩

/-- C10: `engineering.reactor.set` stores the requested `mw` clamped into
`[0, reactor.max_mw]` and returns `none`; with the field absent, the output
is unchanged whenever it already lies in that range (the handler clamps the
current value in that case). -/
theorem reactor_set_clamps (ship : Ship) (mwQ : Option ℚ) :
    (reactorSet ship mwQ).1 = none ∧
    (∀ m, mwQ = some m →
      (reactorSet ship mwQ).2.reactor.output_mw =
        max 0 (min ship.reactor.max_mw m)) ∧
    (mwQ = none → 0 ≤ ship.reactor.output_mw →
      ship.reactor.output_mw ≤ ship.reactor.max_mw →
      (reactorSet ship mwQ).2.reactor.output_mw = ship.reactor.output_mw) := by
  refine ⟨rfl, ?_, ?_⟩
  · intro m hm
    subst hm
    rfl
  · intro hnone h0 hle
    subst hnone
    simp only [reactorSet, Option.getD_none]
    rw [min_eq_right hle, max_eq_right h0]

/-- Witness for C10: a present and an absent `mw` field on a concrete ship. -/
theorem reactor_set_clamps_witness :
    ((reactorSet {} (some 250)).2.reactor.output_mw =
       max 0 (min ({} : Ship).reactor.max_mw 250)) ∧
    ((reactorSet {} none).2.reactor.output_mw =
       ({} : Ship).reactor.output_mw) :=
  ⟨(reactor_set_clamps {} (some 250)).2.1 250 rfl,
   (reactor_set_clamps {} none).2.2 rfl (by norm_num) (by norm_num)⟩

/-- C5 (counterexample): on a concrete ship whose reactor is NOT scrammed and
which is moving, `step_engineering` changes `battery_pct` — refuting the
claim that the battery drains only when the reactor is scrammed. -/
theorem step_engineering_drains_unscrammed :
    c5Ship.reactor.scrammed = false ∧
    (step_engineering c5Ship 1).reactor.battery_pct ≠
      c5Ship.reactor.battery_pct := by
  constructor
  · rfl
  · show max 0 (100 - 1 * max 0 (min 1 ((10 : ℚ) / max 1 30)) / 60 * 1) ≠ 100
    norm_num

/-- C5 (amended): `step_engineering` drains the battery at
`1% · speed_frac / 60` per second on every call, scrammed or not; the
reactor output is forced to `0` at an empty battery only when scrammed, and
is left unchanged (beyond nothing) when the reactor is not scrammed. -/
theorem step_engineering_battery_and_output (ship : Ship) (dt : ℚ) :
    (step_engineering ship dt).reactor.battery_pct =
      max 0 (ship.reactor.battery_pct -
        (1 * max 0 (min 1 (ship.kin.speed / max 1 ship.hull.max_speed)) / 60)
          * dt) ∧
    (step_engineering ship dt).reactor.output_mw =
      (if ship.reactor.scrammed then
        (if max 0 (ship.reactor.battery_pct -
              (1 * max 0 (min 1 (ship.kin.speed / max 1 ship.hull.max_speed))
                / 60) * dt) ≤ 0
         then 0 else min ship.reactor.output_mw 10)
       else ship.reactor.output_mw) := by
  constructor
  · rfl
  · cases hsc : ship.reactor.scrammed <;>
      simp only [step_engineering, hsc] <;> simp

theorem mem_setTube {l : List Tube} {idx : ℤ} {t' x : Tube}
    (hx : x ∈ setTube l idx t') : x = t' ∨ x ∈ l := by
  induction l with
  | nil => simp [setTube] at hx
  | cons a as ih =>
    by_cases h : a.idx = idx
    · simp only [setTube, if_pos h, List.mem_cons] at hx
      rcases hx with rfl | hx
      · exact Or.inl rfl
      · exact Or.inr (List.mem_cons_of_mem _ hx)
    · simp only [setTube, if_neg h, List.mem_cons] at hx
      rcases hx with rfl | hx
      · exact Or.inr (List.mem_cons_self _ _)
      · rcases ih hx with h1 | h2
        · exact Or.inl h1
        · exact Or.inr (List.mem_cons_of_mem _ h2)

theorem tubeInv_stepTube (dt : ℚ) (t : Tube) (h : TubeInv t) :
    TubeInv (stepTube dt t) := by
  obtain ⟨h0, hz, hp⟩ := h
  unfold stepTube
  by_cases ht : t.timer_s > 0
  · have hns := hp ht
    simp only [if_pos ht]
    by_cases h1 : max 0 (t.timer_s - dt) = 0 ∧ t.next_state ≠ none
    · simp only [if_pos h1]
      exact ⟨le_max_left _ _, fun _ => rfl, fun hpos => absurd h1.1
        (ne_of_gt (by simpa using hpos))⟩
    · simp only [if_neg h1]
      refine ⟨le_max_left _ _, fun hzero => ?_, fun _ => hns⟩
      exact absurd (And.intro hzero hns) h1
  · simp only [if_neg ht]
    exact ⟨h0, hz, hp⟩

theorem shipTubesInv_step_tubes (ship : Ship) (dt : ℚ)
    (hinv : ShipTubesInv ship) : ShipTubesInv (step_tubes ship dt) := by
  intro t ht
  have ht' : t ∈ ship.weapons.tubes.map (stepTube dt) := ht
  rcases List.mem_map.mp ht' with ⟨u, hu, rfl⟩
  exact tubeInv_stepTube dt u (hinv u hu)

theorem tubeInv_loaded (ws : WeaponsSuite) (tube : Tube) (w : String)
    (hrt : 0 < ws.reload_time_s) :
    TubeInv { tube with weapon := some { name := w },
                        next_state := some .Loaded,
                        timer_s :=
                          ws.reload_time_s * max 1 ws.time_penalty_multiplier }
    := by
  have hpos : 0 < ws.reload_time_s * max 1 ws.time_penalty_multiplier :=
    mul_pos hrt (lt_of_lt_of_le one_pos (le_max_left _ _))
  exact ⟨le_of_lt hpos, fun hzero => absurd hzero (ne_of_gt hpos),
    fun _ => Option.some_ne_none _⟩

theorem shipTubesInv_try_load (ship : Ship) (i : ℤ) (w : String)
    (hpos : PosTimes ship) (hinv : ShipTubesInv ship) :
    ShipTubesInv (try_load_tube ship i w).2 := by
  simp only [try_load_tube]
  by_cases h1 : ship.systems.tubes_ok = false
  · simp only [if_pos h1]; exact hinv
  · simp only [if_neg h1]
    cases hget : getTube ship i with
    | none => exact hinv
    | some tube =>
      by_cases h2 : tube.state ≠ TubeState.Empty ∨
          ship.weapons.torpedoes_stored ≤ 0
      · simp only [if_pos h2]; exact hinv
      · simp only [if_neg h2]
        by_cases h3 : tube.timer_s > 0
        · simp only [if_pos h3]; exact hinv
        · simp only [if_neg h3]
          intro t ht
          rcases mem_setTube ht with rfl | hmem
          · exact tubeInv_loaded ship.weapons tube w hpos.1
          · exact hinv t hmem

theorem tubeInv_timed (tube : Tube) (ns : TubeState) (d : ℚ) (hd : 0 < d) :
    TubeInv { tube with next_state := some ns, timer_s := d } :=
  ⟨le_of_lt hd, fun hzero => absurd hzero (ne_of_gt hd),
    fun _ => Option.some_ne_none _⟩

theorem shipTubesInv_try_flood (ship : Ship) (i : ℤ)
    (hpos : PosTimes ship) (hinv : ShipTubesInv ship) :
    ShipTubesInv (try_flood_tube ship i).2 := by
  simp only [try_flood_tube]
  by_cases h1 : ship.systems.tubes_ok = false
  · simp only [if_pos h1]; exact hinv
  · simp only [if_neg h1]
    cases hget : getTube ship i with
    | none => exact hinv
    | some tube =>
      by_cases h2 : tube.state ≠ TubeState.Loaded
      · simp only [if_pos h2]; exact hinv
      · simp only [if_neg h2]
        by_cases h3 : tube.timer_s > 0
        · simp only [if_pos h3]; exact hinv
        · simp only [if_neg h3]
          intro t ht
          rcases mem_setTube ht with rfl | hmem
          · exact tubeInv_timed _ _ _
              (mul_pos hpos.2.1 (lt_of_lt_of_le one_pos (le_max_left _ _)))
          · exact hinv t hmem

theorem shipTubesInv_try_doors (ship : Ship) (i : ℤ) (b : Bool)
    (hpos : PosTimes ship) (hinv : ShipTubesInv ship) :
    ShipTubesInv (try_set_doors ship i b).2 := by
  simp only [try_set_doors]
  by_cases h1 : ship.systems.tubes_ok = false
  · simp only [if_pos h1]; exact hinv
  · simp only [if_neg h1]
    cases hget : getTube ship i with
    | none => exact hinv
    | some tube =>
      by_cases h2 : tube.timer_s > 0
      · simp only [if_pos h2]; exact hinv
      · simp only [if_neg h2]
        by_cases h3 : b = true ∧ tube.state = TubeState.Flooded
        · simp only [if_pos h3]
          intro t ht
          rcases mem_setTube ht with rfl | hmem
          · exact tubeInv_timed _ _ _
              (mul_pos hpos.2.2 (lt_of_lt_of_le one_pos (le_max_left _ _)))
          · exact hinv t hmem
        · simp only [if_neg h3]
          by_cases h4 : b = false ∧ tube.state = TubeState.DoorsOpen
          · simp only [if_pos h4]
            intro t ht
            rcases mem_setTube ht with rfl | hmem
            · exact tubeInv_timed _ _ _ hpos.2.2
            · exact hinv t hmem
          · simp only [if_neg h4]; exact hinv

theorem shipTubesInv_try_fire (n : ℤ) (ship : Ship) (i : ℤ)
    (b r : ℚ) (e : Option ℚ) (d : String) (hinv : ShipTubesInv ship) :
    ShipTubesInv (try_fire n ship i b r e d).2 := by
  simp only [try_fire]
  cases hget : getTube ship i with
  | none => exact hinv
  | some tube =>
    by_cases h2 : tube.state ≠ TubeState.DoorsOpen
    · simp only [if_pos h2]; exact hinv
    · simp only [if_neg h2]
      cases hw : tube.weapon with
      | none => exact hinv
      | some wpn =>
        intro t ht
        rcases mem_setTube ht with rfl | hmem
        · exact ⟨le_refl 0, fun _ => rfl, fun hlt => absurd hlt (by simp)⟩
        · exact hinv t hmem

theorem weaponsTimes_runWeaponsCmd (c : WeaponsCmd) (ship : Ship) :
    (runWeaponsCmd c ship).weapons.reload_time_s =
        ship.weapons.reload_time_s ∧
      (runWeaponsCmd c ship).weapons.flood_time_s =
        ship.weapons.flood_time_s ∧
      (runWeaponsCmd c ship).weapons.doors_time_s =
        ship.weapons.doors_time_s := by
  cases c with
  | load i w =>
    simp only [runWeaponsCmd, try_load_tube]
    by_cases h1 : ship.systems.tubes_ok = false
    · simp [if_pos h1]
    · simp only [if_neg h1]
      cases hget : getTube ship i with
      | none => exact ⟨rfl, rfl, rfl⟩
      | some tube =>
        by_cases h2 : tube.state ≠ TubeState.Empty ∨
            ship.weapons.torpedoes_stored ≤ 0
        · simp [if_pos h2]
        · simp only [if_neg h2]
          by_cases h3 : tube.timer_s > 0
          · simp [if_pos h3]
          · simp [if_neg h3]
  | flood i =>
    simp only [runWeaponsCmd, try_flood_tube]
    by_cases h1 : ship.systems.tubes_ok = false
    · simp [if_pos h1]
    · simp only [if_neg h1]
      cases hget : getTube ship i with
      | none => exact ⟨rfl, rfl, rfl⟩
      | some tube =>
        by_cases h2 : tube.state ≠ TubeState.Loaded
        · simp [if_pos h2]
        · simp only [if_neg h2]
          by_cases h3 : tube.timer_s > 0
          · simp [if_pos h3]
          · simp [if_neg h3]
  | doors i b =>
    simp only [runWeaponsCmd, try_set_doors]
    by_cases h1 : ship.systems.tubes_ok = false
    · simp [if_pos h1]
    · simp only [if_neg h1]
      cases hget : getTube ship i with
      | none => exact ⟨rfl, rfl, rfl⟩
      | some tube =>
        by_cases h2 : tube.timer_s > 0
        · simp [if_pos h2]
        · simp only [if_neg h2]
          by_cases h3 : b = true ∧ tube.state = TubeState.Flooded
          · simp [if_pos h3]
          · simp only [if_neg h3]
            by_cases h4 : b = false ∧ tube.state = TubeState.DoorsOpen
            · simp [if_pos h4]
            · simp [if_neg h4]
  | fire n i b r e d =>
    simp only [runWeaponsCmd, try_fire]
    cases hget : getTube ship i with
    | none => exact ⟨rfl, rfl, rfl⟩
    | some tube =>
      by_cases h2 : tube.state ≠ TubeState.DoorsOpen
      · simp [if_pos h2]
      · simp only [if_neg h2]
        cases hw : tube.weapon with
        | none => exact ⟨rfl, rfl, rfl⟩
        | some wpn => exact ⟨rfl, rfl, rfl⟩
  | step dt =>
    exact ⟨rfl, rfl, rfl⟩

theorem posTimes_runWeaponsCmd (c : WeaponsCmd) (ship : Ship)
    (hpos : PosTimes ship) : PosTimes (runWeaponsCmd c ship) := by
  obtain ⟨e1, e2, e3⟩ := weaponsTimes_runWeaponsCmd c ship
  exact ⟨e1 ▸ hpos.1, e2 ▸ hpos.2.1, e3 ▸ hpos.2.2⟩

theorem shipTubesInv_runWeaponsCmd (c : WeaponsCmd) (ship : Ship)
    (hpos : PosTimes ship) (hinv : ShipTubesInv ship) :
    ShipTubesInv (runWeaponsCmd c ship) := by
  cases c with
  | load i w => exact shipTubesInv_try_load ship i w hpos hinv
  | flood i => exact shipTubesInv_try_flood ship i hpos hinv
  | doors i b => exact shipTubesInv_try_doors ship i b hpos hinv
  | fire n i b r e d => exact shipTubesInv_try_fire n ship i b r e d hinv
  | step dt => exact shipTubesInv_step_tubes ship dt hinv

/-- C7: (1) for every command sequence the tube invariant — timer never
negative, `timer_s = 0 ⇒ next_state = none`, `timer_s > 0 ⇒ next_state`
set — is preserved on every tube; (2) `step_tubes` steps each tube
independently; (3) a running timer brought to `0` by a step promotes the
tube to the prior `next_state` and clears it; (4) load/flood/doors attempts
are rejected (returning `false` and leaving the ship unchanged) while the
addressed tube's timer is running. -/
theorem tube_timer_next_state :
    (∀ (ship : Ship) (cmds : List WeaponsCmd),
      PosTimes ship → ShipTubesInv ship →
      ShipTubesInv (runWeaponsCmds cmds ship)) ∧
    (∀ (ship : Ship) (dt : ℚ),
      (step_tubes ship dt).weapons.tubes =
        ship.weapons.tubes.map (stepTube dt)) ∧
    (∀ (dt : ℚ) (t : Tube) (ns : TubeState),
      0 < t.timer_s → t.timer_s ≤ dt → t.next_state = some ns →
      stepTube dt t =
        { t with timer_s := 0, state := ns, next_state := none }) ∧
    (∀ (ship : Ship) (i : ℤ) (t : Tube) (w : String) (b : Bool),
      getTube ship i = some t → 0 < t.timer_s →
      try_load_tube ship i w = (false, ship) ∧
      try_flood_tube ship i = (false, ship) ∧
      try_set_doors ship i b = (false, ship)) := by
  refine ⟨?_, ?_, ?_, ?_⟩
  · intro ship cmds hpos hinv
    induction cmds generalizing ship with
    | nil => exact hinv
    | cons c cs ih =>
      exact ih (runWeaponsCmd c ship)
        (posTimes_runWeaponsCmd c ship hpos)
        (shipTubesInv_runWeaponsCmd c ship hpos hinv)
  · intro ship dt
    rfl
  · intro dt t ns hlt hle hns
    have hmax : max 0 (t.timer_s - dt) = 0 :=
      max_eq_left (by linarith)
    simp only [stepTube]
    rw [if_pos hlt, if_pos ⟨hmax, by simp [hns]⟩]
    simp [hmax, hns]
  · intro ship i t w b hget htimer
    refine ⟨?_, ?_, ?_⟩
    · simp only [try_load_tube]
      by_cases h1 : ship.systems.tubes_ok = false
      · simp [if_pos h1]
      · simp only [if_neg h1]
        cases hget2 : getTube ship i with
        | none => simp [hget2] at hget
        | some tube =>
          rw [hget2] at hget
          have hteq : tube = t := by injection hget
          subst hteq
          by_cases h2 : tube.state ≠ TubeState.Empty ∨
              ship.weapons.torpedoes_stored ≤ 0
          · simp [if_pos h2]
          · simp only [if_neg h2]
            simp [if_pos htimer]
    · simp only [try_flood_tube]
      by_cases h1 : ship.systems.tubes_ok = false
      · simp [if_pos h1]
      · simp only [if_neg h1]
        cases hget2 : getTube ship i with
        | none => simp [hget2] at hget
        | some tube =>
          rw [hget2] at hget
          have hteq : tube = t := by injection hget
          subst hteq
          by_cases h2 : tube.state ≠ TubeState.Loaded
          · simp [if_pos h2]
          · simp only [if_neg h2]
            simp [if_pos htimer]
    · simp only [try_set_doors]
      by_cases h1 : ship.systems.tubes_ok = false
      · simp [if_pos h1]
      · simp only [if_neg h1]
        cases hget2 : getTube ship i with
        | none => simp [hget2] at hget
        | some tube =>
          rw [hget2] at hget
          have hteq : tube = t := by injection hget
          subst hteq
          simp [if_pos htimer]

/-- Witness for C7: the default six-tube ship keeps the invariant across a
load followed by a 45 s step, and a load attempt on a tube whose timer is
running (45 s left) is rejected without changing the ship. -/
theorem tube_timer_next_state_witness :
    ShipTubesInv (runWeaponsCmds [.load 1 "Mk48", .step 45] {}) ∧
    try_load_tube c7Ship 1 "Mk48" = (false, c7Ship) :=
  ⟨tube_timer_next_state.1 {} [.load 1 "Mk48", .step 45]
      (by decide) (by decide),
   (tube_timer_next_state.2.2.2 c7Ship 1 c7Tube "Mk48" true
      (by decide) (by decide)).1⟩

theorem snd_mem_of_mem_enum {α : Type _} {l : List α} {p : ℕ × α}
    (hp : p ∈ l.enum) : p.2 ∈ l :=
  List.getElem?_mem (List.mem_enum_iff_getElem?.mp hp)

/-- C8: every contact `passive_contacts` returns carries
`detectability = clamp(SNR/30, 0, 1) ≥ 0.15`, and comes from a listed
target ship whose true bearing is NOT inside the 60° baffles cone centered
astern (baffled targets are suppressed). -/
theorem passive_contacts_baffles_and_gate (O : AcousticOracles)
    (self_ship : Ship) (others : List Ship) :
    ∀ c ∈ passive_contacts O self_ship others,
      (∃ d s, c.detectability = some d ∧ c.snrDb = some s ∧
        (0.15 : ℚ) ≤ d ∧ d = clamp (s / 30) 0 1) ∧
      (∃ other ∈ others, c.id = other.id ∧ ¬baffled O self_ship other) := by
  intro c hc
  unfold passive_contacts at hc
  by_cases hok : self_ship.systems.sonar_ok = false
  · rw [if_pos hok] at hc
    cases hc
  · rw [if_neg hok] at hc
    rcases List.mem_filterMap.mp hc with ⟨kv, hkv, heq⟩
    dsimp only at heq
    by_cases h1 : kv.2.id = self_ship.id
    · rw [if_pos h1] at heq
      cases heq
    · rw [if_neg h1] at heq
      by_cases h2 : baffled O self_ship kv.2
      · rw [if_pos h2] at heq
        cases heq
      · rw [if_neg h2] at heq
        by_cases h3 : passiveDetect O self_ship kv.2 < 0.15
        · rw [if_pos h3] at heq
          cases heq
        · rw [if_neg h3] at heq
          injection heq with heq
          subst heq
          exact ⟨⟨_, _, rfl, rfl, not_lt.mp h3, rfl⟩,
            kv.2, snd_mem_of_mem_enum hkv, rfl, h2⟩

set_option maxHeartbeats 1000000 in
theorem passive_contacts_c8_eval :
    passive_contacts {} {} [c8Red] = [c8Contact] := by
  have hfm0 : fmod 0 360 = 0 := by
    norm_num [fmod]
  have hfm540 : fmod 540 360 = 180 := by
    have h32 : (⌊(3 / 2 : ℚ)⌋ : ℤ) = 1 := by norm_num [Int.floor_eq_iff]
    norm_num [fmod, h32]
  have hkey : speedKeySourceLevel [((5 : ℤ), (110 : ℚ)), (10, 118),
      (15, 130)] 0 = 110 := by
    norm_num [speedKeySourceLevel, argminAbsKey, sortInts, insertSorted,
      lookupIntD]
  have hsrc : passiveSrcLvl c8Red = 116 := by
    have h1 : c8Red.acoustics.source_level_by_speed =
        [((5 : ℤ), (110 : ℚ)), (10, 118), (15, 130)] := rfl
    have h2 : c8Red.kin.speed = 0 := rfl
    have h3 : c8Red.kin.depth = 0 := rfl
    have h4 : c8Red.periscope_raised_attr = false := rfl
    have h5 : c8Red.radio_raised_attr = false := rfl
    norm_num [passiveSrcLvl, h1, h2, h3, h4, h5, hkey]
  have hsnr : passiveSnrDb {} {} c8Red = 52 := by
    have h1 : c8Red.kin.x = 0 := rfl
    have h2 : c8Red.kin.y = 1000 := rfl
    have h3 : ({} : Ship).kin.x = 0 := rfl
    have h4 : ({} : Ship).kin.y = 0 := rfl
    have h5 : ({} : Ship).acoustics.thermocline_on = true := rfl
    have h6 : ({} : Ship).acoustics.passive_snr_penalty_db = 0 := rfl
    norm_num [passiveSnrDb, h1, h2, h3, h4, h5, h6, hsrc]
  have hdet : passiveDetect {} {} c8Red = 1 := by
    unfold passiveDetect
    rw [hsnr]
    norm_num [max_def, min_def]
  have hbaf : ¬baffled {} {} c8Red := by
    have h1 : c8Red.kin.x = 0 := rfl
    have h2 : c8Red.kin.y = 1000 := rfl
    have h3 : ({} : Ship).kin.x = 0 := rfl
    have h4 : ({} : Ship).kin.y = 0 := rfl
    have h5 : ({} : Ship).kin.heading = 0 := rfl
    norm_num [baffled, normalize_angle_deg, angle_diff, BAFFLES_DEG,
      h1, h2, h3, h4, h5, hfm0, hfm540]
  have hclassify : ∀ r : ℚ, classifyShipPassive c8Red 1 52 r = "Unknown" := by
    intro r
    have h1 : c8Red.ship_class = none := rfl
    norm_num [classifyShipPassive, h1]
  have hok : ({} : Ship).systems.sonar_ok = true := rfl
  have hsp : c8Red.kin.speed = 0 := rfl
  have hbn : ({} : Ship).acoustics.bearing_noise_extra = 0 := rfl
  have hgate : ¬(passiveDetect {} {} c8Red < 0.15) := by
    rw [hdet]
    norm_num
  have hid : ¬(c8Red.id = ({} : Ship).id) := by decide
  unfold passive_contacts
  rw [if_neg (show ¬(({} : Ship).systems.sonar_ok = false) by
    rw [hok]; simp)]
  simp only [List.enum, List.enumFrom, List.filterMap_cons,
    List.filterMap_nil]
  simp only [if_neg hid, if_neg hbaf, if_neg hgate]
  simp only [hdet, hsnr, hclassify, hsp, hbn]
  norm_num [normalize_angle_deg, hfm0, c8Contact, max_def, min_def,
    show c8Red.id = "red-01" from rfl]

/-- Witness for C8 at the concrete observer/target pair: the returned
contact for `c8Red` (dead ahead, 1 km) has detectability
`1 = clamp(52/30, 0, 1) ≥ 0.15` and its target is not baffled. -/
theorem passive_contacts_baffles_and_gate_witness :
    (∃ d s, c8Contact.detectability = some d ∧ c8Contact.snrDb = some s ∧
      (0.15 : ℚ) ≤ d ∧ d = clamp (s / 30) 0 1) ∧
    (∃ other ∈ [c8Red], c8Contact.id = other.id ∧
      ¬baffled {} ({} : Ship) other) :=
  passive_contacts_baffles_and_gate {} {} [c8Red] c8Contact
    (by rw [passive_contacts_c8_eval]; exact List.mem_singleton.mpr rfl)

theorem spoofDecay_armed (t : Torpedo) (dt : ℚ) :
    (spoofDecay t dt).armed = t.armed := by
  simp only [spoofDecay]
  split <;> rfl

theorem preArmAvoid_armed (O : TorpOracles) (own : Ship) (t : Torpedo)
    (dt : ℚ) : (preArmAvoid O own t dt).armed = t.armed := by
  simp only [preArmAvoid]
  split
  · split <;> rfl
  · rfl

theorem spoofRoll_armed (O : TorpOracles) (t : Torpedo) :
    (spoofRoll O t).1.armed = t.armed := by
  simp only [spoofRoll]
  split <;> split <;> rfl

theorem spoofRoll_events (O : TorpOracles) (t : Torpedo) :
    (spoofRoll O t).2 = [] ∨ (spoofRoll O t).2 = ["torpedo.spoofed"] := by
  simp only [spoofRoll]
  split <;> split <;> first
    | exact Or.inr rfl
    | exact Or.inl rfl

theorem guidanceSteer_armed (O : TorpOracles) (t1 : Torpedo)
    (los dt : ℚ) : (guidanceSteer O t1 los dt).armed = t1.armed := by
  simp only [guidanceSteer]
  cases hl : t1.los_prev
  · rfl
  · rfl

theorem guidanceStep_armed (O : TorpOracles) (t : Torpedo) (target : Ship)
    (dt : ℚ) : (guidanceStep O t target dt).1.armed = t.armed := by
  simp only [guidanceStep]
  rw [guidanceSteer_armed, spoofRoll_armed]

theorem guidanceStep_events (O : TorpOracles) (t : Torpedo) (target : Ship)
    (dt : ℚ) : (guidanceStep O t target dt).2 = (spoofRoll O t).2 := rfl

theorem torpedoMove_armed (O : TorpOracles) (t : Torpedo) (dt : ℚ) :
    (torpedoMove O t dt).armed = t.armed := rfl

theorem afterSafety_armed (O : TorpOracles) (t : Torpedo) (w : World)
    (dt : ℚ) (ev : List String) :
    (afterSafety O t w dt ev).1.armed = t.armed := by
  simp only [afterSafety]
  cases hd : detonationScan t.armed t.side t.x t.y w.ships
  · cases hn : nearestTarget O t w
    · rfl
    · by_cases ha : t.armed = true
      · simp only [ha, if_pos]
        rw [torpedoMove_armed, guidanceStep_armed]
        exact ha
      · simp only [if_neg ha]
        rw [torpedoMove_armed]
  · rfl

theorem afterSafety_events (O : TorpOracles) (t : Torpedo) (w : World)
    (dt : ℚ) (ev : List String) :
    ∃ extra, (afterSafety O t w dt ev).2.2 = ev ++ extra ∧
      "torpedo.armed" ∉ extra := by
  simp only [afterSafety]
  cases hd : detonationScan t.armed t.side t.x t.y w.ships
  · cases hn : nearestTarget O t w
    · exact ⟨[], rfl, by simp⟩
    · by_cases ha : t.armed = true
      · refine ⟨(spoofRoll O t).2, by simp [ha, guidanceStep_events], ?_⟩
        rcases spoofRoll_events O t with h | h <;> simp [h]
      · exact ⟨[], by simp [if_neg ha], by simp⟩
  · exact ⟨["torpedo.detonated"], rfl, by simp⟩

theorem stepTorpedoRest_armed (O : TorpOracles) (own : Ship)
    (t0 : Torpedo) (w : World) (dt : ℚ) (ev : List String) :
    (stepTorpedoRest O own t0 w dt ev).1.armed = t0.armed := by
  simp only [stepTorpedoRest]
  by_cases h1 : (spoofDecay t0 dt).armed = false
  · simp only [if_pos h1]
    rw [afterSafety_armed, preArmAvoid_armed, spoofDecay_armed]
  · simp only [if_neg h1]
    split
    · rw [show ∀ (u : Torpedo),
          ({ u with run_time := u.max_run_time + 1 } : Torpedo).armed =
            u.armed from fun _ => rfl,
        spoofDecay_armed]
    · rw [afterSafety_armed, spoofDecay_armed]

theorem stepTorpedoRest_events (O : TorpOracles) (own : Ship)
    (t0 : Torpedo) (w : World) (dt : ℚ) (ev : List String) :
    ∃ extra, (stepTorpedoRest O own t0 w dt ev).2.2 = ev ++ extra ∧
      "torpedo.armed" ∉ extra := by
  simp only [stepTorpedoRest]
  by_cases h1 : (spoofDecay t0 dt).armed = false
  · simp only [if_pos h1]
    exact afterSafety_events O _ w dt ev
  · simp only [if_neg h1]
    split
    · exact ⟨["torpedo.self_destruct"], rfl, by simp⟩
    · exact afterSafety_events O _ w dt ev

/-- C3 (counterexample): `c3Red` (a RED ship 10 km east of the origin)
quick-launches a torpedo; the torpedo starts at its shooter's position, so
its distance from the firing ship is `0 < enable_range_m = 800` — by the
claim it must not arm.  Yet one `step_torpedo` call arms it, because the
source measures the arming distance from `world.ships["ownship"]` (10 km
away), not from the shooter. -/
theorem step_torpedo_arms_against_claim :
    c3Launch.ok = true ∧
    c3Launch.data = some c3Torp ∧
    (c3Torp.x - c3Red.kin.x) ^ 2 + (c3Torp.y - c3Red.kin.y) ^ 2 = 0 ∧
    (0 : ℚ) < c3Torp.enable_range_m ∧
    (step_torpedo {} c3Torp c3World 1).map (fun r => r.1.armed) =
      some true := by
  refine ⟨rfl, rfl, by norm_num [c3Torp, c3Red, c3Launch,
    try_launch_torpedo_quick, fmod], by norm_num [c3Torp, c3Red, c3Launch,
    try_launch_torpedo_quick, fmod], ?_⟩
  have h1 : c3World.ships.lookup "ownship" = some ({} : Ship) := rfl
  have h3 : ((!c3Torp.armed) && hypotGeB
      ((c3Torp.x - ({} : Ship).kin.x) ^ 2 +
        (c3Torp.y - ({} : Ship).kin.y) ^ 2) c3Torp.enable_range_m)
      = true := by
    have hx : c3Torp.x = 10000 := rfl
    have hy : c3Torp.y = 0 := rfl
    have ha : c3Torp.armed = false := rfl
    have he : c3Torp.enable_range_m = 800 := rfl
    rw [hx, hy, ha, he]
    norm_num [hypotGeB]
  simp only [step_torpedo, h1, Option.map_some']
  rw [stepTorpedoRest_armed]
  simp only [h3]
  have hc : c3Torp.armed = false ∧
      hypotGeB (c3Torp.x ^ 2 + c3Torp.y ^ 2) c3Torp.enable_range_m = true :=
    ⟨rfl, by
      rw [show c3Torp.x = (10000 : ℚ) from rfl,
        show c3Torp.y = (0 : ℚ) from rfl,
        show c3Torp.enable_range_m = (800 : ℚ) from rfl]
      norm_num [hypotGeB]⟩
  simp [hc.1, hc.2]

/-- C3 (amended): `step_torpedo` sets the torpedo's armed flag (and emits
the `torpedo.armed` event) exactly when the torpedo's horizontal distance
from the ship stored under the `"ownship"` key reaches or exceeds
`enable_range_m` — for torpedoes fired by ownship that is the shooter, but
for torpedoes fired by any other ship the reference point is still
ownship. -/
theorem step_torpedo_arming (O : TorpOracles) (t : Torpedo) (w : World)
    (dt : ℚ) (own : Ship)
    (hown : w.ships.lookup "ownship" = some own) :
    ∃ r, step_torpedo O t w dt = some r ∧
      r.1.armed = (t.armed ||
        hypotGeB ((t.x - own.kin.x) ^ 2 + (t.y - own.kin.y) ^ 2)
          t.enable_range_m) ∧
      ("torpedo.armed" ∈ r.2.2 ↔
        (t.armed = false ∧
          hypotGeB ((t.x - own.kin.x) ^ 2 + (t.y - own.kin.y) ^ 2)
            t.enable_range_m = true)) := by
  simp only [step_torpedo, hown]
  refine ⟨_, rfl, ?_, ?_⟩
  · rw [stepTorpedoRest_armed]
    cases ha : t.armed <;>
      cases hg : hypotGeB ((t.x - own.kin.x) ^ 2 + (t.y - own.kin.y) ^ 2)
        t.enable_range_m <;>
      simp [ha, hg]
  · rcases stepTorpedoRest_events O own
      (if (!t.armed) && hypotGeB ((t.x - own.kin.x) ^ 2 +
          (t.y - own.kin.y) ^ 2) t.enable_range_m
       then { t with armed := true } else t) w dt
      (if (!t.armed) && hypotGeB ((t.x - own.kin.x) ^ 2 +
          (t.y - own.kin.y) ^ 2) t.enable_range_m
       then ["torpedo.armed"] else []) with ⟨extra, heq, hnot⟩
    rw [heq]
    cases ha : t.armed <;>
      cases hg : hypotGeB ((t.x - own.kin.x) ^ 2 + (t.y - own.kin.y) ^ 2)
        t.enable_range_m <;>
      simp [ha, hg, hnot]

/-- Witness for C3 (amended), at the concrete torpedo and world of the
counterexample scenario. -/
theorem step_torpedo_arming_witness :
    ∃ r, step_torpedo {} c3Torp c3World 1 = some r ∧
      r.1.armed = (c3Torp.armed ||
        hypotGeB ((c3Torp.x - ({} : Ship).kin.x) ^ 2 +
          (c3Torp.y - ({} : Ship).kin.y) ^ 2) c3Torp.enable_range_m) ∧
      ("torpedo.armed" ∈ r.2.2 ↔
        (c3Torp.armed = false ∧
          hypotGeB ((c3Torp.x - ({} : Ship).kin.x) ^ 2 +
            (c3Torp.y - ({} : Ship).kin.y) ^ 2) c3Torp.enable_range_m
            = true)) :=
  step_torpedo_arming {} c3Torp c3World 1 {} rfl

theorem applyStage_helm_turn (ship : Ship) (stage : TaskStage) :
    (applyStagePenalties ship .helm stage).hull.turn_rate_max =
      7 * stageHelmFactor stage := by
  cases stage <;> simp [applyStagePenalties]

theorem applyStage_sonar_bearing (ship : Ship) (stage : TaskStage) :
    (applyStagePenalties ship .sonar stage).acoustics.bearing_noise_extra =
      stageSonarExtra stage := by
  cases stage <;> simp [applyStagePenalties]

theorem applyStage_weapons_mult (ship : Ship) (stage : TaskStage) :
    (applyStagePenalties ship .weapons stage).weapons.time_penalty_multiplier
      = stageWeaponsMult stage := by
  cases stage <;> simp [applyStagePenalties]

theorem applyStage_preserves_turn (ship : Ship) (st : Station)
    (stage : TaskStage) (h : st ≠ .helm) :
    (applyStagePenalties ship st stage).hull.turn_rate_max =
      ship.hull.turn_rate_max := by
  cases st <;> first
    | exact absurd rfl h
    | cases stage <;> simp [applyStagePenalties]

theorem applyStage_preserves_bearing (ship : Ship) (st : Station)
    (stage : TaskStage) (h : st ≠ .sonar) :
    (applyStagePenalties ship st stage).acoustics.bearing_noise_extra =
      ship.acoustics.bearing_noise_extra := by
  cases st <;> first
    | exact absurd rfl h
    | cases stage <;> simp [applyStagePenalties]

theorem applyStage_preserves_mult (ship : Ship) (st : Station)
    (stage : TaskStage) (h : st ≠ .weapons) :
    (applyStagePenalties ship st stage).weapons.time_penalty_multiplier =
      ship.weapons.time_penalty_multiplier := by
  cases st <;> first
    | exact absurd rfl h
    | cases stage <;> simp [applyStagePenalties]

theorem recompute_penalty_fields (tasks : ActiveTasks) (ship : Ship) :
    (recomputePenaltiesFromTasks tasks ship).hull.turn_rate_max =
      7 * stageHelmFactor (worstStage tasks.helm) ∧
    (recomputePenaltiesFromTasks tasks ship).acoustics.bearing_noise_extra =
      stageSonarExtra (worstStage tasks.sonar) ∧
    (recomputePenaltiesFromTasks tasks
        ship).weapons.time_penalty_multiplier =
      stageWeaponsMult (worstStage tasks.weapons) := by
  unfold recomputePenaltiesFromTasks
  refine ⟨?_, ?_, ?_⟩
  · rw [applyStage_preserves_turn _ _ _ (by simp),
      applyStage_preserves_turn _ _ _ (by simp),
      applyStage_preserves_turn _ _ _ (by simp),
      applyStage_helm_turn]
  · rw [applyStage_preserves_bearing _ _ _ (by simp),
      applyStage_preserves_bearing _ _ _ (by simp),
      applyStage_sonar_bearing]
  · rw [applyStage_preserves_mult _ _ _ (by simp),
      applyStage_weapons_mult]

theorem worstFold_failed_acc (l : List MaintenanceTask) :
    l.foldl
      (fun worst t =>
        if stage_rank worst < stage_rank t.stage then t.stage else worst)
      .failed = .failed := by
  induction l with
  | nil => rfl
  | cons t ts ih =>
    have : (if stage_rank .failed < stage_rank t.stage then t.stage
            else TaskStage.failed) = .failed := by
      cases h : t.stage <;> simp [stage_rank]
    simpa [List.foldl_cons, this] using ih

theorem worstStage_failed_of_mem {l : List MaintenanceTask}
    (h : ∃ t ∈ l, t.stage = .failed) : worstStage l = .failed := by
  unfold worstStage
  suffices H : ∀ (l : List MaintenanceTask) (acc : TaskStage),
      (∃ t ∈ l, t.stage = .failed) →
      l.foldl
        (fun worst t =>
          if stage_rank worst < stage_rank t.stage then t.stage else worst)
        acc = .failed by
    exact H l .task h
  intro l
  induction l with
  | nil =>
    intro acc hex
    rcases hex with ⟨t, ht, _⟩
    cases ht
  | cons t ts ih =>
    intro acc hex
    rcases hex with ⟨u, hu, hstage⟩
    rcases List.mem_cons.mp hu with rfl | humem
    · have hacc : (if stage_rank acc < stage_rank u.stage then u.stage
          else acc) = .failed := by
        rw [hstage]
        cases acc <;> simp [stage_rank]
      rw [List.foldl_cons, hacc]
      exact worstFold_failed_acc ts
    · rw [List.foldl_cons]
      exact ih _ ⟨u, humem, hstage⟩

/-- C4: after every `_step_station_tasks` call the penalties are those of
the worst stage among each station's surviving tasks (helm turn-rate,
sonar bearing noise, weapons time multiplier shown), resetting to the
no-penalty baseline when no tasks remain (`worstStage [] = task`, factor
`1`); in particular any remaining failed helm task forces
`turn_rate_max = 7 * stageHelmFactor failed = 0`, and with all helm tasks
gone it is `7 * stageHelmFactor task = 7`. -/
theorem maintenance_penalties_aggregate :
    (∀ (O : TaskRng) (scale now_s dt : ℚ) (st : TasksState) (ship : Ship),
      (stepStationTasks O scale now_s dt st ship).2.hull.turn_rate_max =
        7 * stageHelmFactor (worstStage
          (stepStationTasks O scale now_s dt st ship).1.active_tasks.helm) ∧
      (stepStationTasks O scale now_s dt st
          ship).2.acoustics.bearing_noise_extra =
        stageSonarExtra (worstStage
          (stepStationTasks O scale now_s dt st ship).1.active_tasks.sonar) ∧
      (stepStationTasks O scale now_s dt st
          ship).2.weapons.time_penalty_multiplier =
        stageWeaponsMult (worstStage
          (stepStationTasks O scale now_s dt st
            ship).1.active_tasks.weapons)) ∧
    (∀ l : List MaintenanceTask,
      (∃ t ∈ l, t.stage = .failed) → worstStage l = .failed) ∧
    worstStage [] = .task ∧
    stageHelmFactor .failed = 0 ∧
    stageHelmFactor .task = 1 := by
  refine ⟨?_, fun l h => worstStage_failed_of_mem h, rfl, rfl, rfl⟩
  intro O scale now_s dt st ship
  exact recompute_penalty_fields _ _

/-- Witness for C4: a surviving failed helm task pins the worst stage at
`failed`, and a concrete `_step_station_tasks` run (spawns suppressed, one
failed helm task) yields exactly the aggregated helm penalty. -/
theorem maintenance_penalties_aggregate_witness :
    worstStage [c4FailedTask] = .failed ∧
    (stepStationTasks {} 1 0 0
        { active_tasks := { helm := [c4FailedTask] },
          suppress_maintenance_spawns := true }
        {}).2.hull.turn_rate_max =
      7 * stageHelmFactor (worstStage
        (stepStationTasks {} 1 0 0
          { active_tasks := { helm := [c4FailedTask] },
            suppress_maintenance_spawns := true }
          {}).1.active_tasks.helm) :=
  ⟨maintenance_penalties_aggregate.2.1 [c4FailedTask]
      ⟨c4FailedTask, List.mem_singleton.mpr rfl, rfl⟩,
   (maintenance_penalties_aggregate.1 {} 1 0 0
      { active_tasks := { helm := [c4FailedTask] },
        suppress_maintenance_spawns := true } {}).1⟩

theorem add_max_zero_sub (a b : ℚ) : a + max 0 (b - a) = max a b := by
  rcases le_total a b with h | h
  · rw [max_eq_right (by linarith : (0 : ℚ) ≤ b - a), max_eq_right h]
    ring
  · rw [max_eq_left (by linarith : b - a ≤ (0 : ℚ)), max_eq_left h]
    ring

/-- C6 (counterexample): on a ship with 5 stored charges, a drop with
requested spread size 0 succeeds and creates 1 charge, not
`min(0, 10, 5) = 0`; moreover with `minDepth = 50 > maxDepth = 30` the
created charge's target depth is 50, outside the claimed interval
`[max(15, 50), 30]`. -/
theorem try_drop_depth_charges_refuted :
    (try_drop_depth_charges c6O c6Ship 20 50 30 0).ok = true ∧
    (try_drop_depth_charges c6O c6Ship 20 50 30 0).data.length = 1 ∧
    min (0 : ℤ) (min 10 c6Ship.weapons.depth_charges_stored) = 0 ∧
    (try_drop_depth_charges c6O c6Ship 20 50 30 0).data.map
      DepthCharge.target_depth = [50] ∧
    ¬((50 : ℚ) ≤ 30) := by
  refine ⟨?_, ?_, ?_, ?_, ?_⟩
  · rfl
  · rfl
  · decide
  · show [max 15 (50 + 1/2 * max 0 (30 - 50))] = [(50 : ℚ)]
    norm_num
  · norm_num

/-- C6 (amended): every successful `try_drop_depth_charges` call with
requested spread size `n` on a ship holding `s` stored charges creates
exactly `max(1, min(n, 10, s))` depth charges (the source floors the count
at 1), gives each a target depth in
`[max(15, minDepth), max(max(15, minDepth), maxDepth)]` (`= [max(15,
minDepth), maxDepth]` whenever that interval is non-empty), and decrements
`depth_charges_stored` by exactly that same count. -/
theorem try_drop_depth_charges_spec (O : DropOracles) (ship : Ship)
    (spread mnDepth mxDepth : ℚ) (n : ℤ)
    (hcap : (match ship.capabilities with
             | some c => c.has_depth_charges
             | none => false) = true)
    (hstored : 0 < ship.weapons.depth_charges_stored)
    (hcool : ¬ship.weapons.depth_charge_cooldown_timer_s > 0)
    (hunit : ∀ k, 0 ≤ O.unit k ∧ O.unit k < 1) :
    (try_drop_depth_charges O ship spread mnDepth mxDepth n).ok = true ∧
    (try_drop_depth_charges O ship spread mnDepth mxDepth n).data.length =
      (max 1 (min n (min 10 ship.weapons.depth_charges_stored))).toNat ∧
    (∀ dc ∈ (try_drop_depth_charges O ship spread mnDepth mxDepth n).data,
      max 15 mnDepth ≤ dc.target_depth ∧
        dc.target_depth ≤ max (max 15 mnDepth) mxDepth) ∧
    (try_drop_depth_charges O ship spread mnDepth mxDepth
        n).ship.weapons.depth_charges_stored =
      ship.weapons.depth_charges_stored -
        max 1 (min n (min 10 ship.weapons.depth_charges_stored)) := by
  have hcap' : ¬((match ship.capabilities with
                  | some c => c.has_depth_charges
                  | none => false) = false) := by
    rw [hcap]; simp
  have hstored' : ¬ship.weapons.depth_charges_stored ≤ 0 := not_le.mpr hstored
  simp only [try_drop_depth_charges, if_neg hcap', if_neg hstored',
    if_neg hcool]
  refine ⟨trivial, ?_, ?_, trivial⟩
  · simp [List.length_map, List.length_range]
  · intro dc hdc
    rcases List.mem_map.mp hdc with ⟨k, _, rfl⟩
    have hu := hunit k
    have hdiff : (0 : ℚ) ≤ max 0 (mxDepth - mnDepth) := le_max_left _ _
    constructor
    · exact max_le_max (le_refl 15)
        (by nlinarith [mul_nonneg hu.1 hdiff])
    · have hle : mnDepth + O.unit k * max 0 (mxDepth - mnDepth) ≤
          mnDepth + max 0 (mxDepth - mnDepth) := by
        nlinarith [mul_le_mul_of_nonneg_right (le_of_lt hu.2) hdiff]
      calc max 15 (mnDepth + O.unit k * max 0 (mxDepth - mnDepth))
          ≤ max 15 (mnDepth + max 0 (mxDepth - mnDepth)) :=
            max_le_max (le_refl 15) hle
        _ = max 15 (max mnDepth mxDepth) := by
            rw [add_max_zero_sub]
        _ = max (max 15 mnDepth) mxDepth := (max_assoc 15 mnDepth mxDepth).symm

/-- Witness for C6 (amended): 3 charges dropped from 5 stored with
`minDepth = 30`, `maxDepth = 50`. -/
theorem try_drop_depth_charges_spec_witness :
    (try_drop_depth_charges c6O c6Ship 20 30 50 3).ok = true ∧
    (try_drop_depth_charges c6O c6Ship 20 30 50 3).data.length =
      (max 1 (min 3 (min 10 c6Ship.weapons.depth_charges_stored))).toNat ∧
    (∀ dc ∈ (try_drop_depth_charges c6O c6Ship 20 30 50 3).data,
      max 15 30 ≤ dc.target_depth ∧
        dc.target_depth ≤ max (max 15 30) 50) ∧
    (try_drop_depth_charges c6O c6Ship 20 30 50
        3).ship.weapons.depth_charges_stored =
      c6Ship.weapons.depth_charges_stored -
        max 1 (min 3 (min 10 c6Ship.weapons.depth_charges_stored)) :=
  try_drop_depth_charges_spec c6O c6Ship 20 30 50 3 (by decide) (by decide)
    (by norm_num [c6Ship]) (fun _ => ⟨by norm_num [c6O], by norm_num [c6O]⟩)

theorem ActivePingState.ticks_run (dts : List ℚ) (s : ActivePingState)
    (hnn : ∀ d ∈ dts, 0 ≤ d) (hlt : dts.sum < s.timer) :
    s.ticks dts = { s with timer := s.timer - dts.sum } := by
  induction dts generalizing s with
  | nil =>
    simp [ActivePingState.ticks]
  | cons d ds ih =>
    have hd : 0 ≤ d := hnn d (List.mem_cons_self _ _)
    have hds : ∀ x ∈ ds, 0 ≤ x := fun x hx => hnn x (List.mem_cons_of_mem _ hx)
    have hsum : 0 ≤ ds.sum := List.sum_nonneg hds
    rw [List.sum_cons] at hlt
    have hpos : 0 < s.timer :=
      lt_of_le_of_lt (add_nonneg hd hsum) hlt
    have hstep : s.tick d = { s with timer := s.timer - d } := by
      simp [ActivePingState.tick, hpos]
    have hrec := ih { s with timer := s.timer - d }
      hds (by simpa using by linarith)
    calc s.ticks (d :: ds)
        = ({ s with timer := s.timer - d } : ActivePingState).ticks ds := by
          simp [ActivePingState.ticks, hstep]
      _ = { s with timer := s.timer - d - ds.sum } := hrec
      _ = { s with timer := s.timer - (d :: ds).sum } := by
          rw [List.sum_cons]; congr 1; ring

theorem handleSonarPing_fst_none_iff (O : AcousticOracles) (g : ℕ → ℚ)
    (n : String) (w : World) (own : Ship) (st : PingSimState) :
    (handleSonarPing O g n w own st).1 = none ↔ st.aps.timer ≤ 0 := by
  by_cases h : st.aps.timer ≤ 0 <;>
    simp [handleSonarPing, ActivePingState.start, ActivePingState.can_ping, h]

theorem handleSonarPing_success_state (O : AcousticOracles) (g : ℕ → ℚ)
    (n : String) (w : World) (own : Ship) (st : PingSimState)
    (h : st.aps.timer ≤ 0) :
    (handleSonarPing O g n w own st).2.aps =
      { cooldown_s := st.aps.cooldown_s, timer := st.aps.cooldown_s } := by
  simp [handleSonarPing, ActivePingState.start, ActivePingState.can_ping, h]

theorem handleSonarPing_fail (O : AcousticOracles) (g : ℕ → ℚ)
    (n : String) (w : World) (own : Ship) (st : PingSimState)
    (h : ¬st.aps.timer ≤ 0) :
    handleSonarPing O g n w own st = (some "Ping on cooldown", st) := by
  simp [handleSonarPing, ActivePingState.start, ActivePingState.can_ping, h]

/-- C9 (counterexample): after `start` succeeds and `tick 13` overshoots the
12 s cooldown, the timer is negative (non-zero) yet `start()` succeeds
again — so "start() succeeds iff its cooldown timer is zero" is false as
stated (`can_ping` tests `timer <= 0`, and the timer can go below zero). -/
theorem active_ping_start_negative_timer :
    ((((ActivePingState.start {}).2).tick 13).timer ≠ 0) ∧
    ((ActivePingState.start (((ActivePingState.start {}).2).tick 13)).1
        = true) := by
  constructor
  · norm_num [ActivePingState.start, ActivePingState.tick,
      ActivePingState.can_ping]
  · norm_num [ActivePingState.start, ActivePingState.tick,
      ActivePingState.can_ping]

/-- C9 (amended): `ActivePingState.start()` succeeds iff the cooldown timer
is `≤ 0` (the timer may overshoot below zero when ticked) and then sets the
timer to `cooldown_s`; consequently, after a successful `sonar.ping`, a
second `sonar.ping` handled before the cooldown has elapsed (non-negative
frame times summing to less than the cooldown) returns `"Ping on cooldown"`
and produces no new ping responses. -/
theorem active_ping_cooldown_gate :
    (∀ s : ActivePingState,
      ((s.start.1 = true) ↔ s.timer ≤ 0) ∧
      (s.timer ≤ 0 → s.start.2.timer = s.cooldown_s)) ∧
    (∀ (O1 O2 : AcousticOracles) (g1 g2 : ℕ → ℚ) (now1 now2 : String)
       (w1 w2 : World) (own1 own2 : Ship) (st : PingSimState)
       (dts : List ℚ),
      (handleSonarPing O1 g1 now1 w1 own1 st).1 = none →
      (∀ d ∈ dts, 0 ≤ d) →
      dts.sum < st.aps.cooldown_s →
      (handleSonarPing O2 g2 now2 w2 own2
          { (handleSonarPing O1 g1 now1 w1 own1 st).2 with
            aps := ((handleSonarPing O1 g1 now1 w1 own1 st).2.aps).ticks
              dts }).1 = some "Ping on cooldown" ∧
      (handleSonarPing O2 g2 now2 w2 own2
          { (handleSonarPing O1 g1 now1 w1 own1 st).2 with
            aps := ((handleSonarPing O1 g1 now1 w1 own1 st).2.aps).ticks
              dts }).2.last_ping_responses =
        (handleSonarPing O1 g1 now1 w1 own1 st).2.last_ping_responses) := by
  constructor
  · intro s
    constructor
    · by_cases h : s.timer ≤ 0 <;>
        simp [ActivePingState.start, ActivePingState.can_ping, h]
    · intro h
      simp [ActivePingState.start, ActivePingState.can_ping, h]
  · intro O1 O2 g1 g2 now1 now2 w1 w2 own1 own2 st dts hnone hnn hsum
    have htimer : st.aps.timer ≤ 0 :=
      (handleSonarPing_fst_none_iff O1 g1 now1 w1 own1 st).mp hnone
    have haps := handleSonarPing_success_state O1 g1 now1 w1 own1 st htimer
    set st1 := (handleSonarPing O1 g1 now1 w1 own1 st).2 with hst1
    have hticks : st1.aps.ticks dts =
        { st1.aps with timer := st1.aps.timer - dts.sum } :=
      ActivePingState.ticks_run dts st1.aps hnn (by rw [haps]; exact hsum)
    have h0 : (st1.aps.ticks dts).timer = st.aps.cooldown_s - dts.sum := by
      rw [hticks]
      simp [haps]
    have htimer2 : ¬(st1.aps.ticks dts).timer ≤ 0 := by
      rw [h0, not_le]
      linarith [List.sum_nonneg hnn]
    have hfail := handleSonarPing_fail O2 g2 now2 w2 own2
      { st1 with aps := st1.aps.ticks dts } htimer2
    rw [hfail]
    exact ⟨rfl, rfl⟩

/-- Witness for C9 (amended): a concrete double ping with a RED ship in
range; the second ping, 3 s of ticks into the 12 s cooldown, is rejected. -/
theorem active_ping_cooldown_gate_witness :
    ((handleSonarPing {} (fun _ => 0) "t0"
        { ships := [("ownship", {}),
                    ("red-01", { id := "red-01", side := .RED,
                                 kin := { x := 1000 } })] } {} {}).1
      = none) ∧
    ((handleSonarPing {} (fun _ => 0) "t1"
        { ships := [("ownship", {})] } {}
        { (handleSonarPing {} (fun _ => 0) "t0"
            { ships := [("ownship", {}),
                        ("red-01", { id := "red-01", side := .RED,
                                     kin := { x := 1000 } })] } {} {}).2 with
          aps := ((handleSonarPing {} (fun _ => 0) "t0"
            { ships := [("ownship", {}),
                        ("red-01", { id := "red-01", side := .RED,
                                     kin := { x := 1000 } })] } {} {}).2.aps).ticks
            [1, 2] }).1 = some "Ping on cooldown") := by
  constructor
  · exact (handleSonarPing_fst_none_iff _ _ _ _ _ _).mpr (by norm_num)
  · exact (active_ping_cooldown_gate.2 {} {} (fun _ => 0) (fun _ => 0)
      "t0" "t1"
      { ships := [("ownship", {}),
                  ("red-01", { id := "red-01", side := .RED,
                               kin := { x := 1000 } })] }
      { ships := [("ownship", {})] } {} {} {} [1, 2]
      ((handleSonarPing_fst_none_iff _ _ _ _ _ _).mpr (by norm_num))
      (by
        intro d hd
        simp only [List.mem_cons, List.not_mem_nil, or_false] at hd
        rcases hd with rfl | rfl <;> norm_num)
      (by norm_num)).1

/-- Witness for C1 at a concrete ship and concrete orders. -/
theorem integrate_kinematics_depth_heading_bounds_witness :
    (0 ≤ ({} : Ship).hull.max_depth) ∧
      (let s := (integrate_kinematics (fun _ => 0) (fun _ => 0) {}
                  123 10 150 1 false).1
       (0 ≤ s.kin.depth ∧ s.kin.depth ≤ ({} : Ship).hull.max_depth) ∧
         (0 ≤ s.kin.heading ∧ s.kin.heading < 360)) :=
  ⟨by norm_num,
   integrate_kinematics_depth_heading_bounds (fun _ => 0) (fun _ => 0) {}
     123 10 150 1 false (by norm_num)⟩

end SubBridge
